import Mathlib

/-!
# Verification of the DCF valuation engine

Shallow embedding, over exact rationals, of the valuation core of the
`cf_ai_stockAnalysis` repository:

* `services/fundamentals-dcf/python-unified/main.py` — the unified 3-stage DCF
  (`calculate_wacc`, `maybe_calculate_dynamic_wacc`, `validate_terminal_growth`,
  `calculate_working_capital_change_from_days`,
  `calculate_terminal_value_exit_multiple`, `calculate_3stage_dcf`,
  `generate_3stage_assumptions`, `apply_industry_adjustments`,
  `get_sector_profile`);
* `services/fundamentals-dcf/python-dcf/main.py` — the 5-year DCF
  (`calculate_wacc` in debt-to-equity form, `calculate_dcf`,
  `generate_dcf_assumptions`, `adjust_assumptions_for_scenario`), embedded here
  under `pd_`-prefixed names since both source files reuse the same names.

Python floats are modelled as exact rationals (`ℚ`); real-arithmetic
identities and inequalities of the source are therefore exact here.  The
wall-clock timestamp (`datetime.now().isoformat()`) that the source writes
into its output dictionaries is modelled as an explicit `String` parameter,
so that its influence on the output is expressible.  Logging calls and
purely textual diagnostics (note strings) are not modelled.  Exceptions
(`raise ValueError`) are modelled with `Except`.
-/

/-- Terminal-value method selector, source values `'gordon' | 'exit_multiple' | 'both'`
(`python-unified/main.py`, line 1247). -/
inductive TMethod where
  | gordon
  | exitMultiple
  | both
deriving DecidableEq

/-- Economic-moat category, source values `'wide' | 'narrow' | 'none'`. -/
inductive Moat where
  | wide
  | narrow
  | none
deriving DecidableEq

/-- Terminal-dominance warning attached to a valuation result: the source keeps
`terminal_dominance_warning` as `None` or one of two strings
(`python-unified/main.py`, lines 1498-1509). -/
inductive TDWarn where
  | none
  | soft
  | haircut
deriving DecidableEq

/-- Error raised by the valuation pipelines (`raise ValueError(...)`). -/
inductive DcfError where
  | invalid_shares
deriving DecidableEq

/-- The fields of the unified service's `FundamentalsSnapshot` dictionary that
the 3-stage DCF core and the assumption generator read
(`python-unified/main.py`, `fetch_fundamentals_snapshot` /
`calculate_3stage_dcf` / `generate_3stage_assumptions`). -/
structure Snapshot where
  current_price : ℚ
  shares_outstanding : ℚ
  market_cap : ℚ
  revenue : ℚ
  ebitda_margin : ℚ
  gross_margin : ℚ
  cash : ℚ
  total_debt : ℚ
  operating_income : ℚ
  share_repurchases : ℚ
  revenue_cagr_3y : ℚ
  analyst_revenue_growth_3y : ℚ
  economic_moat : Moat
  moat_strength_score : ℚ
  capex_accelerating : Bool
  capex_to_revenue : ℚ
  beta : ℚ
  sector : String
deriving DecidableEq

/-- The assumption dictionary produced by `generate_3stage_assumptions` and
consumed by `calculate_3stage_dcf` (`python-unified/main.py`, lines 1734-1786).
The purely textual `model` / `industry_notes` entries are not modelled;
`generated_at` (a `datetime.now()` stamp) is carried as a string. -/
structure Assumptions where
  stage1_revenue_growth : ℚ
  stage1_years : ℕ
  stage2_starting_growth : ℚ
  stage2_ending_growth : ℚ
  stage2_years : ℕ
  terminal_growth : ℚ
  ebitda_margin_current : ℚ
  ebitda_margin_target : ℚ
  capex_percent_revenue : ℚ
  nwc_percent_revenue : ℚ
  depreciation_percent_revenue : ℚ
  use_days_based_nwc : Bool
  dso_days : ℚ
  dio_days : ℚ
  dpo_days : ℚ
  risk_free_rate : ℚ
  market_risk_premium : ℚ
  beta : ℚ
  cost_of_debt : ℚ
  tax_rate : ℚ
  annual_buyback_rate : ℚ
  annual_debt_paydown_rate : ℚ
  terminal_method : TMethod
  exit_multiple_ev_ebitda : Option ℚ
  enable_dynamic_wacc : Bool
  economic_moat : Moat
  moat_score : ℚ
  analyst_revenue_growth_3y : ℚ
  historical_revenue_growth_3y : ℚ
  generated_at : String
deriving DecidableEq

/-- `calculate_wacc` of the unified service (`python-unified/main.py`,
lines 2032-2061): CAPM cost of equity, market-value weights, and the
professional-standard clamp of the result into the 5 percent - 25 percent
band.  When total capital is zero the cost of equity is returned directly
(before the clamp is ever reached). -/
def calculate_wacc (risk_free_rate beta market_risk_premium cost_of_debt
    market_value_equity market_value_debt tax_rate : ℚ) : ℚ :=
  let cost_of_equity := risk_free_rate + beta * market_risk_premium
  let total_value := market_value_equity + market_value_debt
  if total_value = 0 then
    cost_of_equity
  else
    let weight_equity := market_value_equity / total_value
    let weight_debt := market_value_debt / total_value
    let wacc := weight_equity * cost_of_equity
      + weight_debt * cost_of_debt * (1 - tax_rate)
    if wacc > 25/100 then 25/100
    else if wacc < 5/100 then 5/100
    else wacc

/-- `maybe_calculate_dynamic_wacc` (`python-unified/main.py`, lines 2064-2078):
optional leverage-based shift of the static WACC, floored at zero. -/
def maybe_calculate_dynamic_wacc (base_wacc : ℚ) (a : Assumptions)
    (market_value_equity market_value_debt : ℚ) : ℚ :=
  if !a.enable_dynamic_wacc then base_wacc
  else
    let total_value := market_value_equity + market_value_debt
    if total_value ≤ 0 then base_wacc
    else
      let leverage := market_value_debt / total_value
      let adjustment := (leverage - 30/100) * (1/100)
      max 0 (base_wacc + adjustment)

/-- `validate_terminal_growth` (`python-unified/main.py`, lines 906-912):
growth at or above WACC is replaced by 70 percent of WACC, otherwise the
value is clamped into `[0, 0.08]`. -/
def validate_terminal_growth (terminal_growth wacc : ℚ) : ℚ :=
  if wacc ≤ 0 then min (8/100) (max 0 terminal_growth)
  else if terminal_growth ≥ wacc then wacc * (7/10)
  else max 0 (min (8/100) terminal_growth)

/-- Result of `calculate_working_capital_change_from_days`
(`python-unified/main.py`, lines 860-897). -/
structure WCDelta where
  delta_ar : ℚ
  delta_inventory : ℚ
  delta_ap : ℚ
  delta_nwc : ℚ
deriving DecidableEq

/-- `calculate_working_capital_change_from_days` (`python-unified/main.py`,
lines 860-897): change in net working capital from DSO/DIO/DPO days. -/
def calculate_working_capital_change_from_days (revenue_current revenue_prev
    cogs_margin dso_days dio_days dpo_days : ℚ) : WCDelta :=
  let cogs_current := max 0 (revenue_current * cogs_margin)
  let cogs_prev := max 0 (revenue_prev * cogs_margin)
  let daily_rev_curr := revenue_current / 365
  let daily_rev_prev := revenue_prev / 365
  let daily_cogs_curr := cogs_current / 365
  let daily_cogs_prev := cogs_prev / 365
  let delta_ar := dso_days * daily_rev_curr - dso_days * daily_rev_prev
  let delta_inv := dio_days * daily_cogs_curr - dio_days * daily_cogs_prev
  let delta_ap := dpo_days * daily_cogs_curr - dpo_days * daily_cogs_prev
  { delta_ar := delta_ar
    delta_inventory := delta_inv
    delta_ap := delta_ap
    delta_nwc := (delta_ar + delta_inv) - delta_ap }

/-- Python's `exit_multiple or 10.0`: `None` and `0.0` are both falsy and
replaced by `10.0` (`python-unified/main.py`, lines 902 and 1472). -/
def exit_multiple_or_default (o : Option ℚ) : ℚ :=
  match o with
  | Option.none => 10
  | some x => if x = 0 then 10 else x

/-- `calculate_terminal_value_exit_multiple` (`python-unified/main.py`,
lines 900-903): EV/EBITDA exit multiple clamped into `[3, 30]`. -/
def calculate_terminal_value_exit_multiple (terminal_ebitda exit_multiple : ℚ) : ℚ :=
  let m := max 3 (min 30 (if exit_multiple = 0 then 10 else exit_multiple))
  terminal_ebitda * m

/-- One row of the projection table built by `calculate_3stage_dcf`
(`python-unified/main.py`, lines 1343-1359 and 1419-1436).  Stage-2 rows also
carry their growth rate (`growth_rate`), stage-1 rows do not. -/
structure ProjYear where
  year : ℕ
  stage : ℕ
  revenue : ℚ
  ebitda : ℚ
  ebitda_margin : ℚ
  ebit : ℚ
  nopat : ℚ
  depreciation : ℚ
  capex : ℚ
  nwc_change : ℚ
  free_cash_flow : ℚ
  discount_factor : ℚ
  pv_fcf : ℚ
  shares_outstanding : ℚ
  total_debt : ℚ
  growth_rate : Option ℚ
deriving DecidableEq

/-- Effective revenue growth used for projection year `y` (1-10).
Stage 1 (years 1-5): geometric decay `0.92^(year-1)` applied only above the
25 percent high-growth threshold (`python-unified/main.py`, lines 1283-1289).
Stage 2 (years 6-10): linear decline from the stage-1 rate to the stage-2
ending rate (lines 1365-1367). -/
def eff_growth (a : Assumptions) (y : ℕ) : ℚ :=
  if y ≤ 5 then
    if a.stage1_revenue_growth > 25/100 then
      a.stage1_revenue_growth * (92/100) ^ (y - 1)
    else a.stage1_revenue_growth
  else
    a.stage1_revenue_growth
      - (a.stage1_revenue_growth - a.stage2_ending_growth) * (((y : ℚ) - 5) / 5)

/-- Projected revenue for year `y`; `proj_revenue f a 0` is the snapshot's
base revenue, and each later year compounds the previous year's revenue by
its effective growth (`python-unified/main.py`, lines 1291-1295 and
1369-1374: `projected_revenue = projections[year-2].revenue * (1 + growth)`). -/
def proj_revenue (f : Snapshot) (a : Assumptions) : ℕ → ℚ
  | 0 => f.revenue
  | y + 1 => proj_revenue f a y * (1 + eff_growth a (y + 1))

/-- EBITDA margin for projection year `y`: linear interpolation from the
current margin to the target across stage 1 (`python-unified/main.py`,
lines 1297-1299), held at the target in stage 2 (line 1377). -/
def proj_margin (a : Assumptions) (y : ℕ) : ℚ :=
  if y ≤ 5 then
    a.ebitda_margin_current
      + (a.ebitda_margin_target - a.ebitda_margin_current) * ((y : ℚ) / 5)
  else a.ebitda_margin_target

/-- The prior-year revenue the source feeds into the working-capital delta.
In stage 1 it recomputes it as `current_revenue * (1+stage1_growth)^(year-1)`
(line 1315) — note this ignores the growth decay, unlike the actual revenue
sequence.  In stage 2 it is the true prior-year revenue (lines 1373, 1393). -/
def nwc_prior_revenue (f : Snapshot) (a : Assumptions) (y : ℕ) : ℚ :=
  if y ≤ 5 then f.revenue * (1 + a.stage1_revenue_growth) ^ (y - 1)
  else proj_revenue f a (y - 1)

/-- COGS margin derived from the snapshot's gross margin, clamped into
`[0, 0.95]` (`python-unified/main.py`, line 1276). -/
def cogs_margin (f : Snapshot) : ℚ :=
  max 0 (min (95/100) (1 - f.gross_margin))

/-- Change in net working capital for projection year `y`: days-based when
`use_days_based_nwc` is set, otherwise a flat share of the revenue change
(`python-unified/main.py`, lines 1314-1328 and 1392-1406). -/
def nwc_change_at (f : Snapshot) (a : Assumptions) (y : ℕ) : ℚ :=
  if a.use_days_based_nwc then
    (calculate_working_capital_change_from_days (proj_revenue f a y)
      (nwc_prior_revenue f a y) (cogs_margin f)
      a.dso_days a.dio_days a.dpo_days).delta_nwc
  else (proj_revenue f a y - nwc_prior_revenue f a y) * a.nwc_percent_revenue

/-- Free cash flow of projection year `y`:
`NOPAT + D&A - CapEx - ΔNWC` (`python-unified/main.py`, lines 1297-1331 and
1376-1409).  Independent of the discount rate. -/
def fcf_at (f : Snapshot) (a : Assumptions) (y : ℕ) : ℚ :=
  let rev := proj_revenue f a y
  let ebitda := rev * proj_margin a y
  let depreciation := rev * a.depreciation_percent_revenue
  let ebit := ebitda - depreciation
  let nopat := ebit * (1 - a.tax_rate)
  let capex := rev * a.capex_percent_revenue
  nopat + depreciation - capex - nwc_change_at f a y

/-- Buyback rate clamped into `[0, 0.1]` (`python-unified/main.py`, line 1244). -/
def buyback_rate (a : Assumptions) : ℚ :=
  max 0 (min (1/10) a.annual_buyback_rate)

/-- Debt-paydown rate clamped into `[0, 0.2]` (`python-unified/main.py`, line 1245). -/
def paydown_rate (a : Assumptions) : ℚ :=
  max 0 (min (2/10) a.annual_debt_paydown_rate)

/-- One projection row for year `y`, discounted at rate `w`
(`python-unified/main.py`, lines 1280-1359 for stage 1 and 1364-1436 for
stage 2).  Shares and debt have been drifted `y` times when row `y` is
recorded, since the source updates them just before appending the row. -/
def proj_year (f : Snapshot) (a : Assumptions) (w : ℚ) (y : ℕ) : ProjYear :=
  let rev := proj_revenue f a y
  let margin := proj_margin a y
  let ebitda := rev * margin
  let depreciation := rev * a.depreciation_percent_revenue
  let ebit := ebitda - depreciation
  let nopat := ebit * (1 - a.tax_rate)
  let capex := rev * a.capex_percent_revenue
  let nwc := nwc_change_at f a y
  let fcf := fcf_at f a y
  { year := y
    stage := if y ≤ 5 then 1 else 2
    revenue := rev
    ebitda := ebitda
    ebitda_margin := margin
    ebit := ebit
    nopat := nopat
    depreciation := depreciation
    capex := capex
    nwc_change := nwc
    free_cash_flow := fcf
    discount_factor := (1 + w) ^ y
    pv_fcf := fcf / (1 + w) ^ y
    shares_outstanding := f.shares_outstanding * (1 - buyback_rate a) ^ y
    total_debt := f.total_debt * (1 - paydown_rate a) ^ y
    growth_rate := if y ≤ 5 then Option.none else some (eff_growth a y) }

/-- The ten-row projection table of `calculate_3stage_dcf`: years 1-5 are
stage 1, years 6-10 are stage 2 (`python-unified/main.py`, lines 1280 and
1364: `for year in range(1, 6)` and `for year in range(6, 11)`). -/
def projections (f : Snapshot) (a : Assumptions) (w : ℚ) : List ProjYear :=
  (List.range' 1 10).map (proj_year f a w)

/-- Sum of the present values of the ten explicit-year cash flows
(`python-unified/main.py`, line 1493). -/
def sum_pv_fcf (f : Snapshot) (a : Assumptions) (w : ℚ) : ℚ :=
  ((projections f a w).map (fun p => p.pv_fcf)).sum

/-- Static WACC of a 3-stage run: `calculate_wacc` on the snapshot's market
value of equity and total debt (`python-unified/main.py`, lines 1250-1258). -/
def wacc_static (f : Snapshot) (a : Assumptions) : ℚ :=
  calculate_wacc a.risk_free_rate a.beta a.market_risk_premium a.cost_of_debt
    (f.current_price * f.shares_outstanding) f.total_debt a.tax_rate

/-- Discount rate actually used by a 3-stage run (static WACC, optionally
adjusted by `maybe_calculate_dynamic_wacc`; lines 1259-1264). -/
def wacc_used (f : Snapshot) (a : Assumptions) : ℚ :=
  maybe_calculate_dynamic_wacc (wacc_static f a) a
    (f.current_price * f.shares_outstanding) f.total_debt

/-- Terminal growth actually used in the Gordon Growth formula, after
`validate_terminal_growth` against the discount rate `w`
(`python-unified/main.py`, lines 1266-1271). -/
def terminal_growth_used (a : Assumptions) (w : ℚ) : ℚ :=
  validate_terminal_growth a.terminal_growth w

/-- Terminal-year (year 11) revenue (`python-unified/main.py`, line 1440). -/
def terminal_revenue (f : Snapshot) (a : Assumptions) (w : ℚ) : ℚ :=
  proj_revenue f a 10 * (1 + terminal_growth_used a w)

/-- Terminal-year free cash flow before the negative-FCF floor
(`python-unified/main.py`, lines 1442-1460). -/
def terminal_fcf_raw (f : Snapshot) (a : Assumptions) (w : ℚ) : ℚ :=
  let y11 := terminal_revenue f a w
  let y10 := proj_revenue f a 10
  let terminal_ebitda := y11 * a.ebitda_margin_target
  let terminal_depreciation := y11 * a.depreciation_percent_revenue
  let terminal_ebit := terminal_ebitda - terminal_depreciation
  let terminal_nopat := terminal_ebit * (1 - a.tax_rate)
  let terminal_capex := y11 * a.capex_percent_revenue
  let terminal_nwc :=
    if a.use_days_based_nwc then
      (calculate_working_capital_change_from_days y11 y10 (cogs_margin f)
        a.dso_days a.dio_days a.dpo_days).delta_nwc
    else (y11 - y10) * a.nwc_percent_revenue
  terminal_nopat + terminal_depreciation - terminal_capex - terminal_nwc

/-- Terminal-year free cash flow after the conservative floor: a non-positive
value is replaced by 5 percent of terminal-year revenue
(`python-unified/main.py`, lines 1462-1466). -/
def terminal_fcf (f : Snapshot) (a : Assumptions) (w : ℚ) : ℚ :=
  if terminal_fcf_raw f a w ≤ 0 then terminal_revenue f a w * (5/100)
  else terminal_fcf_raw f a w

/-- Gordon Growth terminal value (`python-unified/main.py`, line 1469). -/
def tv_gordon (f : Snapshot) (a : Assumptions) (w : ℚ) : ℚ :=
  terminal_fcf f a w / (w - terminal_growth_used a w)

/-- Exit-multiple terminal value, computed only for the `exit_multiple` and
`both` methods (`python-unified/main.py`, lines 1470-1472). -/
def tv_exit_opt (f : Snapshot) (a : Assumptions) (w : ℚ) : Option ℚ :=
  if a.terminal_method = TMethod.exitMultiple ∨ a.terminal_method = TMethod.both then
    some (calculate_terminal_value_exit_multiple
      (terminal_revenue f a w * a.ebitda_margin_target)
      (exit_multiple_or_default a.exit_multiple_ev_ebitda))
  else Option.none

/-- Headline terminal value per the selected method (`python-unified/main.py`,
lines 1479-1487): Gordon, exit multiple (falling back to Gordon when absent),
or the arithmetic mean of the two. -/
def terminal_value (f : Snapshot) (a : Assumptions) (w : ℚ) : ℚ :=
  match a.terminal_method with
  | TMethod.gordon => tv_gordon f a w
  | TMethod.exitMultiple =>
    match tv_exit_opt f a w with
    | some x => x
    | Option.none => tv_gordon f a w
  | TMethod.both =>
    match tv_exit_opt f a w with
    | some x => (tv_gordon f a w + x) / 2
    | Option.none => tv_gordon f a w

/-- Present value of the terminal value before the dominance haircut
(`python-unified/main.py`, line 1490). -/
def pv_terminal_value_pre (f : Snapshot) (a : Assumptions) (w : ℚ) : ℚ :=
  terminal_value f a w / (1 + w) ^ 10

/-- Enterprise value before the dominance haircut (line 1494). -/
def enterprise_value_pre (f : Snapshot) (a : Assumptions) (w : ℚ) : ℚ :=
  sum_pv_fcf f a w + pv_terminal_value_pre f a w

/-- Terminal value as a share of enterprise value, zero when enterprise value
is non-positive (`python-unified/main.py`, line 1497). -/
def tv_percent_pre (f : Snapshot) (a : Assumptions) (w : ℚ) : ℚ :=
  if enterprise_value_pre f a w > 0 then
    pv_terminal_value_pre f a w / enterprise_value_pre f a w
  else 0

/-- Present value of the terminal value after the 20 percent dominance
haircut, applied only above the 80 percent threshold
(`python-unified/main.py`, lines 1501-1505). -/
def pv_terminal_value_post (f : Snapshot) (a : Assumptions) (w : ℚ) : ℚ :=
  if tv_percent_pre f a w > 80/100 then
    pv_terminal_value_pre f a w * (80/100)
  else pv_terminal_value_pre f a w

/-- Enterprise value after the dominance safeguard; recomputed from the
reduced terminal value when the haircut fired (lines 1505, otherwise 1494). -/
def enterprise_value_post (f : Snapshot) (a : Assumptions) (w : ℚ) : ℚ :=
  sum_pv_fcf f a w + pv_terminal_value_post f a w

/-- Terminal-value share reported in the result (recomputed after a haircut,
`python-unified/main.py`, line 1506). -/
def tv_percent_post (f : Snapshot) (a : Assumptions) (w : ℚ) : ℚ :=
  if tv_percent_pre f a w > 80/100 then
    (if enterprise_value_post f a w > 0 then
      pv_terminal_value_post f a w / enterprise_value_post f a w
    else 0)
  else tv_percent_pre f a w

/-- Terminal-dominance warning of a run (`python-unified/main.py`,
lines 1498-1509). -/
def tv_dominance_warning (f : Snapshot) (a : Assumptions) (w : ℚ) : TDWarn :=
  if tv_percent_pre f a w > 80/100 then TDWarn.haircut
  else if tv_percent_pre f a w > 75/100 then TDWarn.soft
  else TDWarn.none

/-- Net debt after ten years of debt paydown drift (`python-unified/main.py`,
line 1513: `net_debt = current_debt - cash`). -/
def net_debt (f : Snapshot) (a : Assumptions) : ℚ :=
  f.total_debt * (1 - paydown_rate a) ^ 10 - f.cash

/-- Equity value (`python-unified/main.py`, line 1514). -/
def equity_value (f : Snapshot) (a : Assumptions) (w : ℚ) : ℚ :=
  enterprise_value_post f a w - net_debt f a

/-- Final share count used for the per-share division:
`max(1.0, current_shares)` after ten years of buyback drift
(`python-unified/main.py`, line 1517).  Because of the `max` with one, the
`final_shares <= 0` guard on line 1518 can never fire. -/
def final_shares (f : Snapshot) (a : Assumptions) : ℚ :=
  max 1 (f.shares_outstanding * (1 - buyback_rate a) ^ 10)

/-- Price per share before the market-cap sanity cap (line 1521). -/
def price_pre_cap (f : Snapshot) (a : Assumptions) (w : ℚ) : ℚ :=
  equity_value f a w / final_shares f a

/-- Implied market capitalization (`python-unified/main.py`, line 1524). -/
def implied_market_cap (f : Snapshot) (a : Assumptions) (w : ℚ) : ℚ :=
  price_pre_cap f a w * final_shares f a

/-- Fair value per share at discount rate `w`, after the five-trillion-dollar
market-cap sanity cap (`python-unified/main.py`, lines 1523-1531). -/
def price_given_wacc (f : Snapshot) (a : Assumptions) (w : ℚ) : ℚ :=
  if implied_market_cap f a w > 5000000000000 then
    price_pre_cap f a w * (5000000000000 / implied_market_cap f a w)
  else price_pre_cap f a w

/-- Upside/downside percentage versus the current price, zero when the
current price is non-positive (`python-unified/main.py`, line 1534). -/
def upside_downside (f : Snapshot) (a : Assumptions) (w : ℚ) : ℚ :=
  if f.current_price > 0 then
    (price_given_wacc f a w - f.current_price) / f.current_price * 100
  else 0

/-- The synthetic terminal year record (`python-unified/main.py`,
lines 1554-1562): always numbered 11. -/
structure TerminalYear where
  year : ℕ
  revenue : ℚ
  ebitda : ℚ
  ebit : ℚ
  nopat : ℚ
  fcf : ℚ
  growth_rate : ℚ
deriving DecidableEq

/-- The time-independent part of the result dictionary of
`calculate_3stage_dcf` (`python-unified/main.py`, lines 1538-1572). -/
structure DCFCore where
  price_per_share : ℚ
  current_price : ℚ
  upside_downside : ℚ
  enterprise_value : ℚ
  equity_value : ℚ
  net_debt : ℚ
  wacc : ℚ
  terminal_value : ℚ
  pv_terminal_value : ℚ
  terminal_value_percent : ℚ
  terminal_fcf : ℚ
  sum_pv_fcf_10y : ℚ
  projections : List ProjYear
  terminal_year : TerminalYear
  assumptions : Assumptions
  tv_gordon : ℚ
  tv_exit_multiple : Option ℚ
  method_used : TMethod
  warning_terminal_dominance : TDWarn
deriving DecidableEq

/-- The assumption dictionary echoed in the output: the source overwrites
`assumptions['terminal_growth']` with the validated value when the two differ
by more than `1e-9` (`python-unified/main.py`, lines 1268-1271). -/
def assumptions_echoed (a : Assumptions) (w : ℚ) : Assumptions :=
  if |terminal_growth_used a w - a.terminal_growth| > 1/1000000000 then
    { a with terminal_growth := terminal_growth_used a w }
  else a

/-- The result record a 3-stage run produces when the (dead) shares guard
does not fire (`python-unified/main.py`, lines 1538-1572). -/
def dcf_core (f : Snapshot) (a : Assumptions) : DCFCore :=
  let w := wacc_used f a
  { price_per_share := price_given_wacc f a w
    current_price := f.current_price
    upside_downside := upside_downside f a w
    enterprise_value := enterprise_value_post f a w
    equity_value := equity_value f a w
    net_debt := net_debt f a
    wacc := w
    terminal_value := terminal_value f a w
    pv_terminal_value := pv_terminal_value_post f a w
    terminal_value_percent := tv_percent_post f a w
    terminal_fcf := terminal_fcf f a w
    sum_pv_fcf_10y := sum_pv_fcf f a w
    projections := projections f a w
    terminal_year :=
      { year := 11
        revenue := terminal_revenue f a w
        ebitda := terminal_revenue f a w * a.ebitda_margin_target
        ebit := terminal_revenue f a w * a.ebitda_margin_target
          - terminal_revenue f a w * a.depreciation_percent_revenue
        nopat := (terminal_revenue f a w * a.ebitda_margin_target
          - terminal_revenue f a w * a.depreciation_percent_revenue)
          * (1 - a.tax_rate)
        fcf := terminal_fcf f a w
        growth_rate := terminal_growth_used a w }
    assumptions := assumptions_echoed a w
    tv_gordon := tv_gordon f a w
    tv_exit_multiple := tv_exit_opt f a w
    method_used := a.terminal_method
    warning_terminal_dominance := tv_dominance_warning f a w }

/-- Time-independent part of `calculate_3stage_dcf`
(`python-unified/main.py`, lines 1218-1574).  The `ValueError` raised on
non-positive final shares (line 1519) is modelled with `Except`; it is dead
code because `final_shares` is floored at one. -/
def calculate_3stage_core (f : Snapshot) (a : Assumptions) :
    Except DcfError DCFCore :=
  if final_shares f a ≤ 0 then Except.error DcfError.invalid_shares
  else Except.ok (dcf_core f a)

/-- Sector category used by `get_sector_profile`
(`python-unified/main.py`, lines 915-1000). -/
inductive SectorCategory where
  | highGrowth
  | defensive
  | mixed
  | cyclical
  | regulated
  | general
deriving DecidableEq

/-- Sector profile record (`python-unified/main.py`, lines 915-1000). -/
structure SectorProfile where
  category : SectorCategory
  capex_min : ℚ
  dso : ℚ
  dio : ℚ
  dpo : ℚ
  exit_low : ℚ
  exit_high : ℚ
  terminal_growth_cap : ℚ
deriving DecidableEq

/-- Substring test on character lists (Python's `key in s`). -/
def list_contains_sub (hay pat : List Char) : Bool :=
  match hay with
  | [] => pat.isEmpty
  | _ :: t => pat.isPrefixOf hay || list_contains_sub t pat

/-- Substring test on strings, mirroring Python's `key in s`. -/
def str_contains (hay pat : String) : Bool :=
  list_contains_sub hay.data pat.data

/-- ASCII lowercase of one character. -/
def char_ascii_lower (c : Char) : Char :=
  if 65 ≤ c.toNat ∧ c.toNat ≤ 90 then Char.ofNat (c.toNat + 32) else c

/-- Python's `sector.lower()`, modelled for ASCII strings (every sector name
the source compares against is ASCII). -/
def str_ascii_lower (s : String) : String :=
  String.mk (s.data.map char_ascii_lower)

/-- `get_sector_profile` (`python-unified/main.py`, lines 915-1000): the
lowercased sector is matched by substring against the table keys in their
source order; the first hit wins, otherwise a general default is returned. -/
def get_sector_profile (sector : String) : SectorProfile :=
  let s := str_ascii_lower sector
  if str_contains s ("technology") then
    { category := SectorCategory.highGrowth, capex_min := 3/100
      dso := 45, dio := 20, dpo := 40
      exit_low := 10, exit_high := 20, terminal_growth_cap := 45/1000 }
  else if str_contains s ("healthcare") then
    { category := SectorCategory.defensive, capex_min := 4/100
      dso := 60, dio := 50, dpo := 55
      exit_low := 9, exit_high := 14, terminal_growth_cap := 4/100 }
  else if str_contains s ("consumer defensive") then
    { category := SectorCategory.defensive, capex_min := 4/100
      dso := 35, dio := 40, dpo := 45
      exit_low := 8, exit_high := 12, terminal_growth_cap := 35/1000 }
  else if str_contains s ("communication services") then
    { category := SectorCategory.mixed, capex_min := 5/100
      dso := 40, dio := 25, dpo := 45
      exit_low := 8, exit_high := 13, terminal_growth_cap := 4/100 }
  else if str_contains s ("consumer cyclical") then
    { category := SectorCategory.cyclical, capex_min := 4/100
      dso := 40, dio := 50, dpo := 50
      exit_low := 7, exit_high := 12, terminal_growth_cap := 35/1000 }
  else if str_contains s ("industrials") then
    { category := SectorCategory.cyclical, capex_min := 5/100
      dso := 45, dio := 55, dpo := 50
      exit_low := 7, exit_high := 11, terminal_growth_cap := 35/1000 }
  else if str_contains s ("basic materials") then
    { category := SectorCategory.cyclical, capex_min := 6/100
      dso := 45, dio := 70, dpo := 55
      exit_low := 6, exit_high := 10, terminal_growth_cap := 3/100 }
  else if str_contains s ("energy") then
    { category := SectorCategory.cyclical, capex_min := 7/100
      dso := 35, dio := 80, dpo := 60
      exit_low := 4, exit_high := 8, terminal_growth_cap := 3/100 }
  else if str_contains s ("utilities") then
    { category := SectorCategory.regulated, capex_min := 8/100
      dso := 30, dio := 30, dpo := 45
      exit_low := 6, exit_high := 9, terminal_growth_cap := 25/1000 }
  else if str_contains s ("financial services") then
    { category := SectorCategory.regulated, capex_min := 2/100
      dso := 30, dio := 15, dpo := 30
      exit_low := 6, exit_high := 10, terminal_growth_cap := 3/100 }
  else
    { category := SectorCategory.general, capex_min := 4/100
      dso := 45, dio := 60, dpo := 45
      exit_low := 7, exit_high := 12, terminal_growth_cap := 35/1000 }

/-- One-decimal fixed-point rendering of a rational, modelling Python's
`:.1f` float format on the idealised rational floats of this development
(ties round to even, as IEEE doubles do; every value the source formats here
is an exact positive tenth, where the two semantics agree). -/
def fmt_1f (q : ℚ) : String :=
  let f : ℤ := ⌊q * 10⌋
  let r : ℚ := q * 10 - f
  let n : ℤ :=
    if r < 1/2 then f
    else if 1/2 < r then f + 1
    else if f % 2 = 0 then f else f + 1
  let m := n.natAbs
  (if n < 0 then "-" else "") ++ toString (m / 10) ++ "." ++ toString (m % 10)

/-- Validation record `get_exit_multiple_validation` returns
(`python-unified/main.py`, lines 1040-1053).  The nested `provenance`
dictionary is flattened into `provenance_`-prefixed fields; its `vintage` is
a second wall-clock read, `datetime.now().strftime` of the year and month
(line 1049), passed in as `now_month`. -/
structure ExitMultipleValidation where
  within_range : Bool
  range_low : ℚ
  range_high : ℚ
  message : String
  provenance_source : String
  provenance_vintage : String
  provenance_note : String
deriving DecidableEq

/-- The validation record with its wall-clock `vintage` field blanked: the
time-independent part of `get_exit_multiple_validation`'s output. -/
def ExitMultipleValidation.drop_vintage (v : ExitMultipleValidation) :
    ExitMultipleValidation :=
  { v with provenance_vintage := "" }

/-- `get_exit_multiple_validation` (`python-unified/main.py`, lines
1040-1053).  The source's range test `low <= (chosen_multiple or 0) <= high`
is numerically `low ≤ chosen ≤ high` (`x or 0` maps only `0.0` to `0`, the
same value); `now_month` stands for the `datetime.now().strftime` call of
line 1049. -/
def get_exit_multiple_validation (sector : String) (chosen : ℚ)
    (now_month : String) : ExitMultipleValidation :=
  let profile := get_sector_profile sector
  let low := profile.exit_low
  let high := profile.exit_high
  let within := decide (low ≤ chosen ∧ chosen ≤ high)
  { within_range := within
    range_low := low
    range_high := high
    message :=
      if within then
        "Exit multiple " ++ fmt_1f chosen ++ "x within sector range "
          ++ fmt_1f low ++ "-" ++ fmt_1f high ++ "x"
      else
        "Exit multiple " ++ fmt_1f chosen ++ "x outside sector range "
          ++ fmt_1f low ++ "-" ++ fmt_1f high ++ "x"
    provenance_source := "heuristic_sector_ranges"
    provenance_vintage := now_month
    provenance_note :=
      "Replace with external dataset (e.g., Damodaran) for stricter validation." }

/-- The `exit_multiple_validation` entry of the result's `terminal_methods`
dictionary: computed exactly when the exit-multiple terminal value is (i.e.
for the `exit_multiple` and `both` methods), on the sector and the defaulted
multiple (`python-unified/main.py`, lines 1474-1478). -/
def exit_multiple_validation_opt (f : Snapshot) (a : Assumptions)
    (now_month : String) : Option ExitMultipleValidation :=
  if a.terminal_method = TMethod.exitMultiple ∨ a.terminal_method = TMethod.both
  then some (get_exit_multiple_validation f.sector
    (exit_multiple_or_default a.exit_multiple_ev_ebitda) now_month)
  else Option.none

/-- Full result of `calculate_3stage_dcf`: the core plus the two
clock-dependent parts — the `calculation_date` timestamp the source takes
from `datetime.now().isoformat()` (`python-unified/main.py`, line 1573) and
the `terminal_methods.exit_multiple_validation` record whose provenance
vintage is a second clock read (lines 1568 and 1049). -/
structure DCFResult extends DCFCore where
  calculation_date : String
  exit_multiple_validation : Option ExitMultipleValidation
deriving DecidableEq

/-- `calculate_3stage_dcf` (`python-unified/main.py`, lines 1218-1574), with
the wall clock's two reads during the call passed explicitly: `now_iso` for
the `calculation_date` stamp (line 1573) and `now_month` for the validation
record's provenance vintage (line 1049, reached via line 1477). -/
def calculate_3stage_dcf (f : Snapshot) (a : Assumptions)
    (now_iso now_month : String) : Except DcfError DCFResult :=
  (calculate_3stage_core f a).map
    (fun r => { toDCFCore := r
                calculation_date := now_iso
                exit_multiple_validation :=
                  exit_multiple_validation_opt f a now_month })

/-- `apply_industry_adjustments` (`python-unified/main.py`, lines 1003-1037),
written field-by-field (the source's sequential mutations are independent,
so this is the same function):
the working-capital day fields are re-assigned to themselves (the source uses
`assumptions.get('dso_days', profile['dso'])` on keys the generator always
sets), CapEx is floored at the sector minimum, terminal growth is capped at
the sector cap (and, for regulated sectors, capped again), the margin target
is nudged up for high-growth sectors, and the risk premium is trimmed for
regulated sectors.  The textual `industry_notes` are not modelled. -/
def apply_industry_adjustments (f : Snapshot) (a : Assumptions) : Assumptions :=
  let p := get_sector_profile f.sector
  { a with
    capex_percent_revenue :=
      if a.capex_percent_revenue < p.capex_min then p.capex_min
      else a.capex_percent_revenue
    terminal_growth :=
      let t := if a.terminal_growth > p.terminal_growth_cap then
        p.terminal_growth_cap else a.terminal_growth
      if p.category = SectorCategory.regulated then min t p.terminal_growth_cap
      else t
    ebitda_margin_target :=
      if p.category = SectorCategory.highGrowth then
        min (7/10) (a.ebitda_margin_target * (105/100))
      else a.ebitda_margin_target
    market_risk_premium :=
      if p.category = SectorCategory.regulated then
        max (5/100) (a.market_risk_premium - 5/1000)
      else a.market_risk_premium }

/-- Caller overrides for `generate_3stage_assumptions`: the `custom`
dictionary merged with `assumptions.update(custom)`
(`python-unified/main.py`, line 1789).  A present field replaces the
generated default wholesale. -/
structure Overrides where
  stage1_revenue_growth : Option ℚ := Option.none
  stage1_years : Option ℕ := Option.none
  stage2_starting_growth : Option ℚ := Option.none
  stage2_ending_growth : Option ℚ := Option.none
  stage2_years : Option ℕ := Option.none
  terminal_growth : Option ℚ := Option.none
  ebitda_margin_current : Option ℚ := Option.none
  ebitda_margin_target : Option ℚ := Option.none
  capex_percent_revenue : Option ℚ := Option.none
  nwc_percent_revenue : Option ℚ := Option.none
  depreciation_percent_revenue : Option ℚ := Option.none
  use_days_based_nwc : Option Bool := Option.none
  dso_days : Option ℚ := Option.none
  dio_days : Option ℚ := Option.none
  dpo_days : Option ℚ := Option.none
  risk_free_rate : Option ℚ := Option.none
  market_risk_premium : Option ℚ := Option.none
  beta : Option ℚ := Option.none
  cost_of_debt : Option ℚ := Option.none
  tax_rate : Option ℚ := Option.none
  annual_buyback_rate : Option ℚ := Option.none
  annual_debt_paydown_rate : Option ℚ := Option.none
  terminal_method : Option TMethod := Option.none
  exit_multiple_ev_ebitda : Option (Option ℚ) := Option.none
  enable_dynamic_wacc : Option Bool := Option.none
  economic_moat : Option Moat := Option.none
  moat_score : Option ℚ := Option.none
  analyst_revenue_growth_3y : Option ℚ := Option.none
  historical_revenue_growth_3y : Option ℚ := Option.none
  generated_at : Option String := Option.none

/-- `assumptions.update(custom)`: last-write-wins, key by key
(`python-unified/main.py`, line 1789). -/
def apply_overrides (a : Assumptions) (o : Overrides) : Assumptions :=
  { stage1_revenue_growth := o.stage1_revenue_growth.getD a.stage1_revenue_growth
    stage1_years := o.stage1_years.getD a.stage1_years
    stage2_starting_growth := o.stage2_starting_growth.getD a.stage2_starting_growth
    stage2_ending_growth := o.stage2_ending_growth.getD a.stage2_ending_growth
    stage2_years := o.stage2_years.getD a.stage2_years
    terminal_growth := o.terminal_growth.getD a.terminal_growth
    ebitda_margin_current := o.ebitda_margin_current.getD a.ebitda_margin_current
    ebitda_margin_target := o.ebitda_margin_target.getD a.ebitda_margin_target
    capex_percent_revenue := o.capex_percent_revenue.getD a.capex_percent_revenue
    nwc_percent_revenue := o.nwc_percent_revenue.getD a.nwc_percent_revenue
    depreciation_percent_revenue :=
      o.depreciation_percent_revenue.getD a.depreciation_percent_revenue
    use_days_based_nwc := o.use_days_based_nwc.getD a.use_days_based_nwc
    dso_days := o.dso_days.getD a.dso_days
    dio_days := o.dio_days.getD a.dio_days
    dpo_days := o.dpo_days.getD a.dpo_days
    risk_free_rate := o.risk_free_rate.getD a.risk_free_rate
    market_risk_premium := o.market_risk_premium.getD a.market_risk_premium
    beta := o.beta.getD a.beta
    cost_of_debt := o.cost_of_debt.getD a.cost_of_debt
    tax_rate := o.tax_rate.getD a.tax_rate
    annual_buyback_rate := o.annual_buyback_rate.getD a.annual_buyback_rate
    annual_debt_paydown_rate :=
      o.annual_debt_paydown_rate.getD a.annual_debt_paydown_rate
    terminal_method := o.terminal_method.getD a.terminal_method
    exit_multiple_ev_ebitda :=
      o.exit_multiple_ev_ebitda.getD a.exit_multiple_ev_ebitda
    enable_dynamic_wacc := o.enable_dynamic_wacc.getD a.enable_dynamic_wacc
    economic_moat := o.economic_moat.getD a.economic_moat
    moat_score := o.moat_score.getD a.moat_score
    analyst_revenue_growth_3y :=
      o.analyst_revenue_growth_3y.getD a.analyst_revenue_growth_3y
    historical_revenue_growth_3y :=
      o.historical_revenue_growth_3y.getD a.historical_revenue_growth_3y
    generated_at := o.generated_at.getD a.generated_at }

/-- Size-based growth ceiling ("law of large numbers",
`python-unified/main.py`, lines 1588-1610). -/
def max_sustainable_growth (market_cap : ℚ) : ℚ :=
  if market_cap > 3000000000000 then 15/100
  else if market_cap > 1000000000000 then 20/100
  else if market_cap > 500000000000 then 25/100
  else if market_cap > 100000000000 then 35/100
  else if market_cap > 10000000000 then 50/100
  else 1

/-- Sector EBITDA-margin targets for mean reversion, exact-match lookup on
the snapshot's sector string (`python-unified/main.py`, lines 1626-1640). -/
def sector_margin_target (sector : String) : ℚ :=
  if sector = ("Technology") then 30/100
  else if sector = ("Healthcare") then 20/100
  else if sector = ("Financial Services") then 25/100
  else if sector = ("Consumer Defensive") then 15/100
  else if sector = ("Consumer Cyclical") then 12/100
  else if sector = ("Industrials") then 15/100
  else if sector = ("Energy") then 18/100
  else if sector = ("Utilities") then 22/100
  else if sector = ("Real Estate") then 35/100
  else if sector = ("Communication Services") then 25/100
  else if sector = ("Basic Materials") then 18/100
  else 25/100

/-- `generate_3stage_assumptions` (`python-unified/main.py`,
lines 1577-1794): blended growth under the size ceiling, sector-based margin
mean reversion, moat-based terminal growth, CapEx and beta validation, then
the caller's overrides (`assumptions.update(custom)`), then
`apply_industry_adjustments` — in that source order, so the sector
adjustments run after the override merge. -/
def generate_3stage_assumptions (f : Snapshot) (o : Overrides) (now : String) :
    Assumptions :=
  let historical_growth := f.revenue_cagr_3y
  let analyst_growth := f.analyst_revenue_growth_3y
  let blended_growth := historical_growth * (4/10) + analyst_growth * (6/10)
  let stage1_growth := min blended_growth (max_sustainable_growth f.market_cap)
  let sector_target := sector_margin_target f.sector
  let current_margin0 := f.ebitda_margin
  let current_margin :=
    if current_margin0 ≤ 0 then 5/100 else current_margin0
  let margin_target :=
    if current_margin0 ≤ 0 then sector_target
    else if current_margin0 > sector_target * (15/10) then
      current_margin0 * (95/100)
    else if current_margin0 > sector_target then
      max (current_margin0 * (98/100)) sector_target
    else min (current_margin0 * (110/100)) sector_target
  let tg :=
    match f.economic_moat with
    | Moat.wide => 45/1000
    | Moat.narrow => 38/1000
    | Moat.none => 3/100
  let capex0 :=
    if f.capex_to_revenue > 50/100 then 15/100 else f.capex_to_revenue
  let capex_pct :=
    max capex0 (if f.capex_accelerating then 6/100 else 4/100)
  let beta_capped :=
    if f.beta > 5/2 then 5/2
    else if f.beta < 3/10 then 3/10
    else f.beta
  let beta_final :=
    if f.beta > 2 then beta_capped * (33/100) + (12/10) * (67/100)
    else beta_capped
  let interest_expense := f.operating_income * (2/100)
  let cod0 := if f.total_debt > 0 then interest_expense / f.total_debt else 4/100
  let cost_of_debt := max (3/100) (min (10/100) cod0)
  let dso := if f.gross_margin > 6/10 then (40 : ℚ)
    else if f.gross_margin < 3/10 then 55 else 45
  let dio := if f.gross_margin > 6/10 then (30 : ℚ)
    else if f.gross_margin < 3/10 then 70 else 60
  let dpo := if f.gross_margin > 6/10 then (50 : ℚ)
    else if f.gross_margin < 3/10 then 45 else 45
  let mc_or_one := if f.market_cap = 0 then 1 else f.market_cap
  let buyback := min (3/100) (max 0 (f.share_repurchases / mc_or_one))
  let paydown := if f.total_debt > 0 then (5/100 : ℚ) else 0
  let generated : Assumptions :=
    { stage1_revenue_growth := stage1_growth
      stage1_years := 5
      stage2_starting_growth := stage1_growth
      stage2_ending_growth := max (tg + 1/100) (stage1_growth * (4/10))
      stage2_years := 5
      terminal_growth := tg
      ebitda_margin_current := current_margin
      ebitda_margin_target := margin_target
      capex_percent_revenue := capex_pct
      nwc_percent_revenue := 2/100
      depreciation_percent_revenue := 3/100
      use_days_based_nwc := true
      dso_days := dso
      dio_days := dio
      dpo_days := dpo
      risk_free_rate := 45/1000
      market_risk_premium := 65/1000
      beta := beta_final
      cost_of_debt := cost_of_debt
      tax_rate := 21/100
      annual_buyback_rate := buyback
      annual_debt_paydown_rate := paydown
      terminal_method := TMethod.both
      exit_multiple_ev_ebitda := some 10
      enable_dynamic_wacc := false
      economic_moat := f.economic_moat
      moat_score := f.moat_strength_score
      analyst_revenue_growth_3y := analyst_growth
      historical_revenue_growth_3y := historical_growth
      generated_at := now }
  apply_industry_adjustments f (apply_overrides generated o)

/-- Snapshot fields of the `python-dcf` service read by `calculate_dcf` and
`generate_dcf_assumptions` (`python-dcf/main.py`, `get_fundamentals_snapshot`). -/
structure PDSnapshot where
  current_price : ℚ
  shares_outstanding : ℚ
  revenue : ℚ
  cash : ℚ
  debt : ℚ
  equity : ℚ
  revenue_growth : ℚ
  ebit_margin : ℚ
  beta : ℚ
deriving DecidableEq

/-- Terminal-value method of the `python-dcf` service
(`terminal_multiple_method`, values `'perpetuity' | 'exit_multiple'`;
any value other than `'exit_multiple'` selects the perpetuity branch). -/
inductive PDTMethod where
  | perpetuity
  | exitMultiple
deriving DecidableEq

/-- Market scenario of the `python-dcf` service; any scenario other than
bull/bear leaves the assumptions unchanged
(`python-dcf/main.py`, `adjust_assumptions_for_scenario`). -/
inductive PDScen where
  | base
  | bull
  | bear
deriving DecidableEq

/-- Assumption dictionary of `generate_dcf_assumptions`
(`python-dcf/main.py`, lines 517-538). -/
structure PDAssumptions where
  revenue_growth_years_1_5 : ℚ
  revenue_growth_years_6_10 : ℚ
  terminal_growth_rate : ℚ
  ebitda_margin_current : ℚ
  ebitda_margin_target : ℚ
  margin_expansion_years : ℕ
  tax_rate_current : ℚ
  tax_rate_target : ℚ
  capex_as_percent_revenue : ℚ
  depreciation_as_percent_capex : ℚ
  working_capital_as_percent_revenue : ℚ
  risk_free_rate : ℚ
  market_risk_premium : ℚ
  beta : ℚ
  cost_of_debt : ℚ
  debt_to_equity : ℚ
  terminal_multiple_method : PDTMethod
  terminal_ebitda_multiple : ℚ
deriving DecidableEq

/-- `calculate_wacc` of the `python-dcf` service (`python-dcf/main.py`,
lines 470-498): debt-to-equity weights with E normalised to one; no clamp
inside this function. -/
def pd_calculate_wacc (risk_free_rate beta market_risk_premium cost_of_debt
    debt_to_equity tax_rate : ℚ) : ℚ :=
  let cost_of_equity := risk_free_rate + beta * market_risk_premium
  let total_value := 1 + debt_to_equity
  let weight_equity := 1 / total_value
  let weight_debt := debt_to_equity / total_value
  weight_equity * cost_of_equity + weight_debt * cost_of_debt * (1 - tax_rate)

/-- WACC of a `python-dcf` run after the `[MIN_WACC, MAX_WACC] = [0.03, 0.30]`
clamp applied inside `calculate_dcf` (`python-dcf/main.py`, lines 324-327). -/
def pd_wacc_clamped (a : PDAssumptions) : ℚ :=
  let w := pd_calculate_wacc a.risk_free_rate a.beta a.market_risk_premium
    a.cost_of_debt a.debt_to_equity a.tax_rate_current
  max (3/100) (min (30/100) w)

/-- Terminal growth used by a `python-dcf` run: reset to half the WACC when it
is not strictly below it (`python-dcf/main.py`, lines 329-332). -/
def pd_tg_used (a : PDAssumptions) : ℚ :=
  if a.terminal_growth_rate ≥ pd_wacc_clamped a then pd_wacc_clamped a * (1/2)
  else a.terminal_growth_rate

/-- Projected revenue of year `y` in `calculate_dcf`
(`python-dcf/main.py`, line 340): independent compounding from base revenue. -/
def pd_proj_revenue (s : PDSnapshot) (a : PDAssumptions) (y : ℕ) : ℚ :=
  s.revenue * (1 + a.revenue_growth_years_1_5) ^ y

/-- Free cash flow of projection year `y` in `calculate_dcf`
(`python-dcf/main.py`, lines 342-364): net income plus depreciation minus
CapEx minus working capital, each a fixed share of that year's revenue. -/
def pd_fcf_at (s : PDSnapshot) (a : PDAssumptions) (y : ℕ) : ℚ :=
  let rev := pd_proj_revenue s a y
  let ebitda := rev * a.ebitda_margin_target
  let depreciation := rev * (3/100)
  let ebit := ebitda - depreciation
  let net_income := ebit * (1 - a.tax_rate_current)
  let capex := rev * a.capex_as_percent_revenue
  let wc_change := rev * a.working_capital_as_percent_revenue
  net_income + depreciation - capex - wc_change

/-- One row of the five-year projection table of `calculate_dcf`
(`python-dcf/main.py`, lines 370-382). -/
structure PDProj where
  year : ℕ
  revenue : ℚ
  ebitda : ℚ
  ebit : ℚ
  ebt : ℚ
  net_income : ℚ
  capex : ℚ
  depreciation : ℚ
  working_capital_change : ℚ
  free_cash_flow : ℚ
  discounted_fcf : ℚ
deriving DecidableEq

/-- Projection row of year `y` (`python-dcf/main.py`, lines 338-382). -/
def pd_proj_year (s : PDSnapshot) (a : PDAssumptions) (w : ℚ) (y : ℕ) : PDProj :=
  let rev := pd_proj_revenue s a y
  let ebitda := rev * a.ebitda_margin_target
  let depreciation := rev * (3/100)
  let ebit := ebitda - depreciation
  let net_income := ebit * (1 - a.tax_rate_current)
  let capex := rev * a.capex_as_percent_revenue
  let wc_change := rev * a.working_capital_as_percent_revenue
  { year := y
    revenue := rev
    ebitda := ebitda
    ebit := ebit
    ebt := ebit
    net_income := net_income
    capex := capex
    depreciation := depreciation
    working_capital_change := wc_change
    free_cash_flow := pd_fcf_at s a y
    discounted_fcf := pd_fcf_at s a y / (1 + w) ^ y }

/-- The five-row projection table (`python-dcf/main.py`, line 338:
`for year in range(1, 6)`). -/
def pd_projections (s : PDSnapshot) (a : PDAssumptions) (w : ℚ) : List PDProj :=
  (List.range' 1 5).map (pd_proj_year s a w)

/-- Sum of discounted five-year cash flows (`python-dcf/main.py`, line 407). -/
def pd_sum_dfcf (s : PDSnapshot) (a : PDAssumptions) (w : ℚ) : ℚ :=
  ((pd_projections s a w).map (fun p => p.discounted_fcf)).sum

/-- Terminal-year (year 6) revenue: year-5 revenue compounded once at the
used terminal growth (`python-dcf/main.py`, line 385). -/
def pd_terminal_revenue (s : PDSnapshot) (a : PDAssumptions) : ℚ :=
  pd_proj_revenue s a 5 * (1 + pd_tg_used a)

/-- Terminal-year free cash flow (`python-dcf/main.py`, lines 386-392);
there is no negative-FCF floor in this service. -/
def pd_terminal_fcf (s : PDSnapshot) (a : PDAssumptions) : ℚ :=
  let trev := pd_terminal_revenue s a
  let tebitda := trev * a.ebitda_margin_target
  let tdep := trev * (3/100)
  let tebit := tebitda - tdep
  let tni := tebit * (1 - a.tax_rate_current)
  tni + tdep - trev * a.capex_as_percent_revenue
    - trev * a.working_capital_as_percent_revenue

/-- Terminal value: exit multiple on terminal EBITDA, or Gordon growth
perpetuity (`python-dcf/main.py`, lines 395-401). -/
def pd_terminal_value (s : PDSnapshot) (a : PDAssumptions) (w : ℚ) : ℚ :=
  if a.terminal_multiple_method = PDTMethod.exitMultiple then
    pd_terminal_revenue s a * a.ebitda_margin_target * a.terminal_ebitda_multiple
  else pd_terminal_fcf s a / (w - pd_tg_used a)

/-- Present value of the terminal value, discounted five years
(`python-dcf/main.py`, line 404). -/
def pd_dtv (s : PDSnapshot) (a : PDAssumptions) (w : ℚ) : ℚ :=
  pd_terminal_value s a w / (1 + w) ^ 5

/-- Enterprise value (`python-dcf/main.py`, line 408). -/
def pd_enterprise_value (s : PDSnapshot) (a : PDAssumptions) (w : ℚ) : ℚ :=
  pd_sum_dfcf s a w + pd_dtv s a w

/-- Equity value (`python-dcf/main.py`, lines 410-412). -/
def pd_equity_value (s : PDSnapshot) (a : PDAssumptions) (w : ℚ) : ℚ :=
  pd_enterprise_value s a w - (s.debt - s.cash)

/-- Fair value per share of a `python-dcf` run (`python-dcf/main.py`,
line 419), using the run's clamped WACC. -/
def pd_price (s : PDSnapshot) (a : PDAssumptions) : ℚ :=
  pd_equity_value s a (pd_wacc_clamped a) / s.shares_outstanding

/-- Result dictionary of `calculate_dcf` (`python-dcf/main.py`,
lines 430-462), numeric core. -/
structure PDResult where
  enterprise_value : ℚ
  equity_value : ℚ
  price_per_share : ℚ
  current_price : ℚ
  upside_downside : ℚ
  wacc : ℚ
  terminal_value : ℚ
  terminal_value_percent : ℚ
  projections : List PDProj
  terminal_revenue : ℚ
  terminal_fcf : ℚ
deriving DecidableEq

/-- `calculate_dcf` (`python-dcf/main.py`, lines 292-467).  The
`raise ValueError` on non-positive shares outstanding (lines 416-417) is
modelled with `Except`; unlike the unified service, this guard is live. -/
def pd_calculate_dcf (s : PDSnapshot) (a : PDAssumptions) :
    Except DcfError PDResult :=
  let w := pd_wacc_clamped a
  if s.shares_outstanding ≤ 0 then Except.error DcfError.invalid_shares
  else
    let ev := pd_enterprise_value s a w
    let eq := pd_equity_value s a w
    let price := eq / s.shares_outstanding
    Except.ok
      { enterprise_value := ev
        equity_value := eq
        price_per_share := price
        current_price := s.current_price
        upside_downside :=
          if s.current_price > 0 then
            (price - s.current_price) / s.current_price * 100
          else 0
        wacc := w
        terminal_value := pd_terminal_value s a w
        terminal_value_percent := if ev > 0 then pd_dtv s a w / ev else 0
        projections := pd_projections s a w
        terminal_revenue := pd_terminal_revenue s a
        terminal_fcf := pd_terminal_fcf s a }

/-- Caller overrides for `generate_dcf_assumptions`
(`python-dcf/main.py`, lines 540-542). -/
structure PDOverrides where
  revenue_growth_years_1_5 : Option ℚ := Option.none
  revenue_growth_years_6_10 : Option ℚ := Option.none
  terminal_growth_rate : Option ℚ := Option.none
  ebitda_margin_current : Option ℚ := Option.none
  ebitda_margin_target : Option ℚ := Option.none
  margin_expansion_years : Option ℕ := Option.none
  tax_rate_current : Option ℚ := Option.none
  tax_rate_target : Option ℚ := Option.none
  capex_as_percent_revenue : Option ℚ := Option.none
  depreciation_as_percent_capex : Option ℚ := Option.none
  working_capital_as_percent_revenue : Option ℚ := Option.none
  risk_free_rate : Option ℚ := Option.none
  market_risk_premium : Option ℚ := Option.none
  beta : Option ℚ := Option.none
  cost_of_debt : Option ℚ := Option.none
  debt_to_equity : Option ℚ := Option.none
  terminal_multiple_method : Option PDTMethod := Option.none
  terminal_ebitda_multiple : Option ℚ := Option.none

/-- Override merge of `generate_dcf_assumptions`
(`python-dcf/main.py`, lines 540-542). -/
def pd_apply_overrides (a : PDAssumptions) (o : PDOverrides) : PDAssumptions :=
  { revenue_growth_years_1_5 :=
      o.revenue_growth_years_1_5.getD a.revenue_growth_years_1_5
    revenue_growth_years_6_10 :=
      o.revenue_growth_years_6_10.getD a.revenue_growth_years_6_10
    terminal_growth_rate := o.terminal_growth_rate.getD a.terminal_growth_rate
    ebitda_margin_current := o.ebitda_margin_current.getD a.ebitda_margin_current
    ebitda_margin_target := o.ebitda_margin_target.getD a.ebitda_margin_target
    margin_expansion_years := o.margin_expansion_years.getD a.margin_expansion_years
    tax_rate_current := o.tax_rate_current.getD a.tax_rate_current
    tax_rate_target := o.tax_rate_target.getD a.tax_rate_target
    capex_as_percent_revenue :=
      o.capex_as_percent_revenue.getD a.capex_as_percent_revenue
    depreciation_as_percent_capex :=
      o.depreciation_as_percent_capex.getD a.depreciation_as_percent_capex
    working_capital_as_percent_revenue :=
      o.working_capital_as_percent_revenue.getD a.working_capital_as_percent_revenue
    risk_free_rate := o.risk_free_rate.getD a.risk_free_rate
    market_risk_premium := o.market_risk_premium.getD a.market_risk_premium
    beta := o.beta.getD a.beta
    cost_of_debt := o.cost_of_debt.getD a.cost_of_debt
    debt_to_equity := o.debt_to_equity.getD a.debt_to_equity
    terminal_multiple_method :=
      o.terminal_multiple_method.getD a.terminal_multiple_method
    terminal_ebitda_multiple :=
      o.terminal_ebitda_multiple.getD a.terminal_ebitda_multiple }

/-- `generate_dcf_assumptions` (`python-dcf/main.py`, lines 501-558):
conservative defaults from the snapshot, the caller's overrides, then the
terminal-growth-versus-estimated-WACC fix applied after the merge. -/
def pd_generate_dcf_assumptions (s : PDSnapshot) (o : PDOverrides) :
    PDAssumptions :=
  let historical_revenue_growth := s.revenue_growth
  let current_ebit_margin := s.ebit_margin
  let d2e := if s.equity > 0 then s.debt / s.equity else 0
  let generated : PDAssumptions :=
    { revenue_growth_years_1_5 := min historical_revenue_growth (15/100)
      revenue_growth_years_6_10 := min (historical_revenue_growth * (1/2)) (8/100)
      terminal_growth_rate := 3/100
      ebitda_margin_current := current_ebit_margin + 3/100
      ebitda_margin_target := min (current_ebit_margin + 5/100) (30/100)
      margin_expansion_years := 5
      tax_rate_current := 21/100
      tax_rate_target := 21/100
      capex_as_percent_revenue := 4/100
      depreciation_as_percent_capex := 80/100
      working_capital_as_percent_revenue := 2/100
      risk_free_rate := 45/1000
      market_risk_premium := 8/100
      beta := s.beta
      cost_of_debt := 5/100
      debt_to_equity := d2e
      terminal_multiple_method := PDTMethod.perpetuity
      terminal_ebitda_multiple := 10 }
  let merged := pd_apply_overrides generated o
  let wacc_estimate := pd_calculate_wacc merged.risk_free_rate merged.beta
    merged.market_risk_premium merged.cost_of_debt merged.debt_to_equity
    merged.tax_rate_current
  if merged.terminal_growth_rate ≥ wacc_estimate then
    { merged with terminal_growth_rate := wacc_estimate * (1/2) }
  else merged

/-- `adjust_assumptions_for_scenario` (`python-dcf/main.py`, lines 561-586):
the standard bull/bear deltas — bull multiplies growth by 1.3 (capped at
`MAX_GROWTH_RATE = 0.5`), adds 200bps to the target margin (capped at 40
percent) and lowers the risk-free rate by 100bps; bear is the inverse with
floors.  The textual `scenario_name`/probability entries are not modelled. -/
def pd_adjust_for_scen (base : PDAssumptions) (scen : PDScen) : PDAssumptions :=
  match scen with
  | PDScen.bull =>
    { base with
      revenue_growth_years_1_5 :=
        min (base.revenue_growth_years_1_5 * (13/10)) (50/100)
      ebitda_margin_target := min (base.ebitda_margin_target + 2/100) (40/100)
      risk_free_rate := base.risk_free_rate - 1/100 }
  | PDScen.bear =>
    { base with
      revenue_growth_years_1_5 :=
        max (base.revenue_growth_years_1_5 * (7/10)) (-(5/100))
      ebitda_margin_target := max (base.ebitda_margin_target - 2/100) (5/100)
      risk_free_rate := base.risk_free_rate + 1/100 }
  | PDScen.base => base

/-- A small concrete snapshot used as a witness input for the unified model. -/
def snap_base : Snapshot :=
  { current_price := 10
    shares_outstanding := 100
    market_cap := 1000
    revenue := 1000
    ebitda_margin := 3/10
    gross_margin := 1/2
    cash := 100
    total_debt := 200
    operating_income := 250
    share_repurchases := 0
    revenue_cagr_3y := 8/100
    analyst_revenue_growth_3y := 8/100
    economic_moat := Moat.none
    moat_strength_score := 0
    capex_accelerating := false
    capex_to_revenue := 4/100
    beta := 1
    sector := "Technology" }

/-- A concrete assumption set used as a witness input for the unified model. -/
def assum_base : Assumptions :=
  { stage1_revenue_growth := 1/10
    stage1_years := 5
    stage2_starting_growth := 1/10
    stage2_ending_growth := 1/25
    stage2_years := 5
    terminal_growth := 3/100
    ebitda_margin_current := 3/10
    ebitda_margin_target := 3/10
    capex_percent_revenue := 1/25
    nwc_percent_revenue := 1/50
    depreciation_percent_revenue := 3/100
    use_days_based_nwc := false
    dso_days := 45
    dio_days := 60
    dpo_days := 45
    risk_free_rate := 45/1000
    market_risk_premium := 65/1000
    beta := 1
    cost_of_debt := 1/20
    tax_rate := 21/100
    annual_buyback_rate := 0
    annual_debt_paydown_rate := 0
    terminal_method := TMethod.gordon
    exit_multiple_ev_ebitda := Option.none
    enable_dynamic_wacc := false
    economic_moat := Moat.none
    moat_score := 0
    analyst_revenue_growth_3y := 8/100
    historical_revenue_growth_3y := 8/100
    generated_at := "2024-01-01T00:00:00" }

/-- Snapshot with zero shares outstanding (the spec's hard-error edge case). -/
def snap_zero_shares : Snapshot :=
  { snap_base with shares_outstanding := 0 }

/-- A mega-revenue snapshot whose implied market capitalization exceeds the
five-trillion-dollar sanity cap of `calculate_3stage_dcf`. -/
def snap_cap : Snapshot :=
  { snap_base with
    revenue := 10000000000000
    shares_outstanding := 1
    cash := 0
    total_debt := 0 }

/-- A small concrete snapshot for the `python-dcf` model. -/
def pd_snap_base : PDSnapshot :=
  { current_price := 10
    shares_outstanding := 100
    revenue := 1000
    cash := 100
    debt := 100
    equity := 1000
    revenue_growth := 8/100
    ebit_margin := 1/4
    beta := 1 }

/-- A declining-revenue snapshot for the `python-dcf` model (three-year
revenue contraction of 30 percent). -/
def pd_snap_declining : PDSnapshot :=
  { current_price := 10
    shares_outstanding := 100000000
    revenue := 1000000000
    cash := 0
    debt := 0
    equity := 1000000000
    revenue_growth := -(30/100)
    ebit_margin := 25/100
    beta := 1 }

/-- `python-dcf` snapshot with zero shares outstanding. -/
def pd_snap_zero_shares : PDSnapshot :=
  { pd_snap_base with shares_outstanding := 0 }

/-- Generated default assumptions for `pd_snap_base`. -/
def pd_assum_base : PDAssumptions :=
  pd_generate_dcf_assumptions pd_snap_base {}

/-- Generated default assumptions for `pd_snap_declining`. -/
def pd_assum_declining : PDAssumptions :=
  pd_generate_dcf_assumptions pd_snap_declining {}

/-- When total capital is nonzero, `calculate_wacc` clamps its result into
the 5 percent - 25 percent band. -/
theorem calculate_wacc_mem_band (rf beta mrp cod mve mvd tax : ℚ)
    (h : mve + mvd ≠ 0) :
    5/100 ≤ calculate_wacc rf beta mrp cod mve mvd tax
      ∧ calculate_wacc rf beta mrp cod mve mvd tax ≤ 25/100 := by
  simp only [calculate_wacc, if_neg h]
  split_ifs with h1 h2
  · exact ⟨by norm_num, le_refl _⟩
  · exact ⟨le_refl _, by norm_num⟩
  · exact ⟨le_of_not_lt h2, le_of_not_lt h1⟩

/-- When total capital is zero, `calculate_wacc` returns the CAPM cost of
equity directly, skipping the clamp. -/
theorem calculate_wacc_zero_total (rf beta mrp cod mve mvd tax : ℚ)
    (h : mve + mvd = 0) :
    calculate_wacc rf beta mrp cod mve mvd tax = rf + beta * mrp := by
  simp only [calculate_wacc, if_pos h]

/-- The discount rate used by a 3-stage run is strictly positive whenever the
snapshot has nonnegative price, shares and debt with positive total capital. -/
theorem wacc_used_pos (f : Snapshot) (a : Assumptions)
    (hp : 0 ≤ f.current_price) (hs : 0 ≤ f.shares_outstanding)
    (hd : 0 ≤ f.total_debt)
    (ht : 0 < f.current_price * f.shares_outstanding + f.total_debt) :
    0 < wacc_used f a := by
  have hb := calculate_wacc_mem_band a.risk_free_rate a.beta
    a.market_risk_premium a.cost_of_debt
    (f.current_price * f.shares_outstanding) f.total_debt a.tax_rate
    (ne_of_gt ht)
  have hbase : 5/100 ≤ wacc_static f a := hb.1
  simp only [wacc_used, maybe_calculate_dynamic_wacc]
  split_ifs with h1 h2
  · linarith
  · linarith
  · push_neg at h2
    have hlev : f.total_debt / (f.current_price * f.shares_outstanding + f.total_debt) ≤ 1 := by
      rw [div_le_one h2]
      have := mul_nonneg hp hs
      linarith
    have hlev0 : 0 ≤ f.total_debt / (f.current_price * f.shares_outstanding + f.total_debt) :=
      div_nonneg hd (le_of_lt h2)
    have : 0 < wacc_static f a
        + (f.total_debt / (f.current_price * f.shares_outstanding + f.total_debt) - 30/100)
          * (1/100) := by nlinarith
    exact lt_max_of_lt_right this

/-- For a positive discount rate, the validated terminal growth is strictly
below it. -/
theorem validate_terminal_growth_lt (tg w : ℚ) (hw : 0 < w) :
    validate_terminal_growth tg w < w := by
  unfold validate_terminal_growth
  rw [if_neg (not_le.mpr hw)]
  split_ifs with h1
  · linarith
  · push_neg at h1
    exact max_lt hw (lt_of_le_of_lt (le_trans (min_le_right _ _) (le_refl _)) h1)

/-- When the terminal growth is already admissible (nonnegative, at most
8 percent, strictly below the discount rate), validation is the identity. -/
theorem validate_terminal_growth_id (tg w : ℚ) (h0 : 0 ≤ tg)
    (h8 : tg ≤ 8/100) (hw : tg < w) :
    validate_terminal_growth tg w = tg := by
  unfold validate_terminal_growth
  rw [if_neg (not_le.mpr (lt_of_le_of_lt h0 hw)), if_neg (not_le.mpr hw),
    min_eq_right h8, max_eq_right h0]

/-- C2. In every 3-stage valuation run on a snapshot with nonnegative price,
shares and debt and positive total market capital — including every bull/bear
run and every sensitivity re-run, all of which call the same
`calculate_3stage_dcf` — the terminal growth rate actually used in the Gordon
Growth formula is strictly less than the discount rate used, and a violating
input value (terminal growth at or above WACC) is auto-corrected to 70
percent of WACC. -/
theorem C2_terminal_growth_below_wacc (f : Snapshot) (a : Assumptions)
    (hp : 0 ≤ f.current_price) (hs : 0 ≤ f.shares_outstanding)
    (hd : 0 ≤ f.total_debt)
    (ht : 0 < f.current_price * f.shares_outstanding + f.total_debt) :
    terminal_growth_used a (wacc_used f a) < wacc_used f a
      ∧ (a.terminal_growth ≥ wacc_used f a →
        terminal_growth_used a (wacc_used f a) = wacc_used f a * (7/10)) := by
  have hwpos := wacc_used_pos f a hp hs hd ht
  refine ⟨validate_terminal_growth_lt _ _ hwpos, fun hge => ?_⟩
  unfold terminal_growth_used validate_terminal_growth
  rw [if_neg (not_le.mpr hwpos), if_pos hge]

/-- Witness for C2 at the concrete base snapshot and assumptions. -/
theorem C2_terminal_growth_below_wacc_witness :
    (0 ≤ snap_base.current_price ∧ 0 ≤ snap_base.shares_outstanding
      ∧ 0 ≤ snap_base.total_debt
      ∧ 0 < snap_base.current_price * snap_base.shares_outstanding
          + snap_base.total_debt)
    ∧ terminal_growth_used assum_base (wacc_used snap_base assum_base)
        < wacc_used snap_base assum_base :=
  ⟨⟨by norm_num [snap_base], by norm_num [snap_base], by norm_num [snap_base],
      by norm_num [snap_base]⟩,
    (C2_terminal_growth_below_wacc snap_base assum_base
      (by norm_num [snap_base]) (by norm_num [snap_base])
      (by norm_num [snap_base]) (by norm_num [snap_base])).1⟩

/-- C3 counterexample. `calculate_wacc` at zero total capital returns the raw
CAPM cost of equity: with risk-free 4.5 percent, beta 2.5 and a 9 percent
equity risk premium it returns 27 percent, above the claimed 25 percent upper
bound — the zero-capital early return bypasses the clamp. -/
theorem C3_wacc_band_counterexample :
    calculate_wacc (45/1000) (5/2) (9/100) (5/100) 0 0 (21/100) > 25/100 := by
  norm_num [calculate_wacc]

/-- C3 amended. When total capital (equity plus debt) is nonzero, the WACC
calculator's result is clamped into the `[0.05, 0.25]` band; when total
capital is zero it returns the CAPM cost of equity unclamped, which can lie
outside the band. -/
theorem C3_wacc_band_amended (rf beta mrp cod mve mvd tax : ℚ) :
    (mve + mvd ≠ 0 →
      5/100 ≤ calculate_wacc rf beta mrp cod mve mvd tax
        ∧ calculate_wacc rf beta mrp cod mve mvd tax ≤ 25/100)
    ∧ (mve + mvd = 0 →
      calculate_wacc rf beta mrp cod mve mvd tax = rf + beta * mrp) :=
  ⟨fun h => calculate_wacc_mem_band rf beta mrp cod mve mvd tax h,
    fun h => calculate_wacc_zero_total rf beta mrp cod mve mvd tax h⟩

/-- Witness for the amended C3 at a concrete nonzero-capital input. -/
theorem C3_wacc_band_amended_witness :
    ((1000 : ℚ) + 200 ≠ 0)
    ∧ (5/100 ≤ calculate_wacc (45/1000) 1 (65/1000) (1/20) 1000 200 (21/100)
      ∧ calculate_wacc (45/1000) 1 (65/1000) (1/20) 1000 200 (21/100) ≤ 25/100) :=
  ⟨by norm_num,
    (C3_wacc_band_amended (45/1000) 1 (65/1000) (1/20) 1000 200 (21/100)).1
      (by norm_num)⟩

/-- The shares guard inside `calculate_3stage_core` is dead code: the final
share count is floored at one, so every run returns a result. -/
theorem calculate_3stage_core_ok (f : Snapshot) (a : Assumptions) :
    calculate_3stage_core f a = Except.ok (dcf_core f a) := by
  unfold calculate_3stage_core
  rw [if_neg (not_le.mpr (show (0:ℚ) < final_shares f a from
    lt_of_lt_of_le one_pos (le_max_left _ _)))]

/-- C1. On a snapshot with `shares_outstanding = 0`, the unified
`calculate_3stage_dcf` does NOT raise: because `final_shares` is computed as
`max(1.0, shares)` before the `<= 0` guard, the guard is dead code and the
function returns a result whose price per share equals the whole equity value
(divided by the substituted share count of one).  The sibling
`python-dcf` `calculate_dcf`, by contrast, raises on the same input, as the
specification demands. -/
theorem C1_zero_shares_no_error :
    calculate_3stage_core snap_zero_shares assum_base
        = Except.ok (dcf_core snap_zero_shares assum_base)
    ∧ (dcf_core snap_zero_shares assum_base).price_per_share
        = (dcf_core snap_zero_shares assum_base).equity_value
    ∧ pd_calculate_dcf pd_snap_zero_shares pd_assum_base
        = Except.error DcfError.invalid_shares := by
  refine ⟨calculate_3stage_core_ok _ _, ?_, ?_⟩
  · norm_num [dcf_core, price_given_wacc, implied_market_cap, price_pre_cap,
      equity_value, final_shares, buyback_rate, paydown_rate, net_debt,
      enterprise_value_post, pv_terminal_value_post, tv_percent_pre,
      enterprise_value_pre, pv_terminal_value_pre, sum_pv_fcf, projections,
      proj_year, fcf_at, nwc_change_at, nwc_prior_revenue, cogs_margin,
      proj_margin, proj_revenue, eff_growth, terminal_value, tv_gordon,
      tv_exit_opt, terminal_fcf, terminal_fcf_raw, terminal_revenue,
      terminal_growth_used, validate_terminal_growth, wacc_used, wacc_static,
      calculate_wacc, maybe_calculate_dynamic_wacc, List.range',
      snap_zero_shares, snap_base, assum_base]
  · norm_num [pd_calculate_dcf, pd_snap_zero_shares, pd_snap_base]

/-- The base assumptions with the `both` terminal method (the generator's
default), under which the exit-multiple validation record is computed. -/
def assum_both : Assumptions :=
  { assum_base with terminal_method := TMethod.both }

/-- C9 counterexample. Two calls of `calculate_3stage_dcf` on the identical
snapshot and assumptions but at different wall-clock instants produce
different outputs, through two separate clock channels: the
`calculation_date` field is `datetime.now().isoformat()` (differs between
two calls one second apart), and under the `both` terminal method the
`exit_multiple_validation.provenance.vintage` field is a second
`datetime.now()` read at month granularity (differs between two calls
straddling a month boundary). Hidden global state flows into the result. -/
theorem C9_identical_calls_counterexample :
    calculate_3stage_dcf snap_base assum_base ("2024-01-01T00:00:00")
        ("2024-01")
      ≠ calculate_3stage_dcf snap_base assum_base ("2024-01-01T00:00:01")
        ("2024-01")
    ∧ calculate_3stage_dcf snap_base assum_both ("2024-01-31T23:59:59")
        ("2024-01")
      ≠ calculate_3stage_dcf snap_base assum_both ("2024-02-01T00:00:00")
        ("2024-02") := by
  constructor
  · intro h
    simp only [calculate_3stage_dcf, calculate_3stage_core_ok,
      Except.map] at h
    rw [Except.ok.injEq] at h
    have h3 := congrArg DCFResult.calculation_date h
    exact absurd h3 (by decide)
  · intro h
    simp only [calculate_3stage_dcf, calculate_3stage_core_ok,
      Except.map] at h
    rw [Except.ok.injEq] at h
    have h3 := congrArg
      (fun r => (DCFResult.exit_multiple_validation r).map
        (fun v => v.provenance_vintage)) h
    exact absurd h3 (by decide)

/-- C9 amended. Stripped of the two clock-derived data — the
`calculation_date` timestamp and the `provenance.vintage` of the
exit-multiple validation record — the output of `calculate_3stage_dcf` is a
pure function of the snapshot and assumptions: the clock influences no other
part of the result, and two calls with identical inputs agree on every
remaining field (all core fields, and all validation fields but the
vintage). -/
theorem C9_identical_calls_amended (f : Snapshot) (a : Assumptions)
    (t₁ t₂ m₁ m₂ : String) :
    (calculate_3stage_dcf f a t₁ m₁).map
        (fun r => (r.toDCFCore,
          r.exit_multiple_validation.map ExitMultipleValidation.drop_vintage))
      = (calculate_3stage_dcf f a t₂ m₂).map
        (fun r => (r.toDCFCore,
          r.exit_multiple_validation.map
            ExitMultipleValidation.drop_vintage)) := by
  have key : (exit_multiple_validation_opt f a m₁).map
        ExitMultipleValidation.drop_vintage
      = (exit_multiple_validation_opt f a m₂).map
        ExitMultipleValidation.drop_vintage := by
    unfold exit_multiple_validation_opt
    split_ifs
    · rfl
    · rfl
  unfold calculate_3stage_dcf
  cases calculate_3stage_core f a with
  | error e => rfl
  | ok r =>
    simp only [Except.map]
    rw [Except.ok.injEq, Prod.mk.injEq]
    exact ⟨rfl, key⟩

/-- C8. The terminal-dominance safeguard of every valuation run: when the
present value of the terminal value exceeds 80 percent of enterprise value,
the run keeps `0.8` of that present value, recomputes enterprise value as the
explicit-horizon sum plus the reduced terminal value (that is, enterprise
value drops by exactly 20 percent of the terminal value's present value), and
flags the haircut; between 75 and 80 percent only a warning is set, and below
75 percent neither, with no value adjusted in either of those cases. -/
theorem C8_terminal_dominance_safeguard (f : Snapshot) (a : Assumptions) :
    (dcf_core f a).pv_terminal_value =
      (if tv_percent_pre f a (wacc_used f a) > 80/100
       then pv_terminal_value_pre f a (wacc_used f a) * (80/100)
       else pv_terminal_value_pre f a (wacc_used f a))
    ∧ (dcf_core f a).enterprise_value =
      (if tv_percent_pre f a (wacc_used f a) > 80/100
       then enterprise_value_pre f a (wacc_used f a)
         - (20/100) * pv_terminal_value_pre f a (wacc_used f a)
       else enterprise_value_pre f a (wacc_used f a))
    ∧ (dcf_core f a).warning_terminal_dominance =
      (if tv_percent_pre f a (wacc_used f a) > 80/100 then TDWarn.haircut
       else if tv_percent_pre f a (wacc_used f a) > 75/100 then TDWarn.soft
       else TDWarn.none) := by
  refine ⟨rfl, ?_, rfl⟩
  show enterprise_value_post f a (wacc_used f a) = _
  unfold enterprise_value_post pv_terminal_value_post enterprise_value_pre
  split_ifs with h
  · ring
  · rfl

/-- The stage-year count fields are not read by the effective-growth rule. -/
theorem eff_growth_years_inv (a : Assumptions) (n₁ n₂ y : ℕ) :
    eff_growth { a with stage1_years := n₁, stage2_years := n₂ } y
      = eff_growth a y := rfl

/-- The stage-year count fields are not read by the revenue recursion. -/
theorem proj_revenue_years_inv (f : Snapshot) (a : Assumptions) (n₁ n₂ : ℕ) :
    ∀ y, proj_revenue f { a with stage1_years := n₁, stage2_years := n₂ } y
      = proj_revenue f a y := by
  intro y
  induction y with
  | zero => rfl
  | succ n ih =>
    simp only [proj_revenue, eff_growth_years_inv]
    rw [ih]

/-- The stage-year count fields are not read when building a projection row. -/
theorem proj_year_years_inv (f : Snapshot) (a : Assumptions) (w : ℚ)
    (n₁ n₂ y : ℕ) :
    proj_year f { a with stage1_years := n₁, stage2_years := n₂ } w y
      = proj_year f a w y := by
  unfold proj_year fcf_at nwc_change_at nwc_prior_revenue
  simp only [proj_revenue_years_inv]
  rfl

/-- The stage-year count fields are not read by the projection table builder. -/
theorem projections_years_inv (f : Snapshot) (a : Assumptions) (w : ℚ)
    (n₁ n₂ : ℕ) :
    projections f { a with stage1_years := n₁, stage2_years := n₂ } w
      = projections f a w := by
  unfold projections
  rw [funext (proj_year_years_inv f a w n₁ n₂)]

/-- C10. Every 3-stage run produces exactly ten projection rows, in order,
numbered year 1 through 10, with stage 1 for years 1-5 and stage 2 for years
6-10, plus one synthetic terminal year numbered 11; the horizon is fixed —
the `stage1_years` / `stage2_years` assumption fields are never read by the
projection loops, so overriding them leaves the projection table (and in
particular its length) unchanged. -/
theorem C10_fixed_ten_year_horizon (f : Snapshot) (a : Assumptions) (w : ℚ)
    (n₁ n₂ : ℕ) :
    (projections f a w).length = 10
    ∧ (∀ i, i < 10 →
        ((projections f a w).get? i).map (fun p => p.year) = some (i + 1)
        ∧ ((projections f a w).get? i).map (fun p => p.stage)
            = some (if i < 5 then 1 else 2))
    ∧ projections f { a with stage1_years := n₁, stage2_years := n₂ } w
        = projections f a w
    ∧ (dcf_core f a).terminal_year.year = 11 := by
  refine ⟨by simp [projections], ?_, projections_years_inv f a w n₁ n₂, rfl⟩
  intro i hi
  interval_cases i <;> exact ⟨rfl, rfl⟩

/-- Witness for C10 at a concrete input (including row seven, a stage-2 row). -/
theorem C10_fixed_ten_year_horizon_witness :
    (projections snap_base assum_base (1/10)).length = 10
    ∧ (((projections snap_base assum_base (1/10)).get? 7).map (fun p => p.year)
        = some 8
      ∧ ((projections snap_base assum_base (1/10)).get? 7).map (fun p => p.stage)
        = some 2)
    ∧ projections snap_base
        { assum_base with stage1_years := 7, stage2_years := 8 } (1/10)
        = projections snap_base assum_base (1/10)
    ∧ (dcf_core snap_base assum_base).terminal_year.year = 11 :=
  ⟨(C10_fixed_ten_year_horizon snap_base assum_base (1/10) 7 8).1,
    (C10_fixed_ten_year_horizon snap_base assum_base (1/10) 7 8).2.1 7
      (by norm_num),
    (C10_fixed_ten_year_horizon snap_base assum_base (1/10) 7 8).2.2.1,
    (C10_fixed_ten_year_horizon snap_base assum_base (1/10) 7 8).2.2.2⟩

/-- C6. Revenue compounding: the year-0 revenue is the snapshot's base
revenue, every projected year's revenue is the previous year's revenue times
one plus that year's effective growth — across both growth stages and the
stage-1/stage-2 boundary — and the revenue recorded in projection row `y` is
exactly `proj_revenue y`, so no row's revenue is computed independently of
its predecessor.  Over exact rationals the identity is exact, hence well
within the claimed `1e-6` relative tolerance. -/
theorem C6_revenue_compounding (f : Snapshot) (a : Assumptions) (w : ℚ)
    (y : ℕ) (h1 : 1 ≤ y) (h10 : y ≤ 10) :
    proj_revenue f a 0 = f.revenue
    ∧ proj_revenue f a y = proj_revenue f a (y - 1) * (1 + eff_growth a y)
    ∧ ((projections f a w).get? (y - 1)).map (fun p => p.revenue)
        = some (proj_revenue f a y) := by
  refine ⟨rfl, ?_, ?_⟩
  · obtain ⟨n, rfl⟩ : ∃ n, y = n + 1 := ⟨y - 1, by omega⟩
    simp only [Nat.add_sub_cancel]
    rfl
  · interval_cases y <;> rfl

/-- Witness for C6 at the stage-1/stage-2 boundary (year six). -/
theorem C6_revenue_compounding_witness :
    proj_revenue snap_base assum_base 0 = snap_base.revenue
    ∧ proj_revenue snap_base assum_base 6
        = proj_revenue snap_base assum_base 5 * (1 + eff_growth assum_base 6)
    ∧ ((projections snap_base assum_base (1/10)).get? 5).map
        (fun p => p.revenue) = some (proj_revenue snap_base assum_base 6) :=
  C6_revenue_compounding snap_base assum_base (1/10) 6 (by norm_num)
    (by norm_num)

/-- C5 counterexample. A caller override is NOT always preserved: with a
Technology-sector snapshot, an override of `terminal_growth = 0.10` is capped
to the sector's 4.5 percent terminal-growth ceiling by
`apply_industry_adjustments`, which runs after the override merge, so the
returned assumption set does not map the key to the caller's value. -/
theorem C5_override_counterexample :
    (generate_3stage_assumptions snap_base
        { terminal_growth := some (1/10) } ("t")).terminal_growth
      ≠ 1/10 := by
  have hsp : get_sector_profile snap_base.sector
      = { category := SectorCategory.highGrowth, capex_min := 3/100
          dso := 45, dio := 20, dpo := 40
          exit_low := 10, exit_high := 20
          terminal_growth_cap := 45/1000 } := rfl
  norm_num [generate_3stage_assumptions, apply_industry_adjustments,
    apply_overrides, hsp]

/-- C5 amended. The override merge is last-write-wins key by key, but the
sector adjustments run after it: `terminal_growth` may be capped at the
sector ceiling, `capex_percent_revenue` floored at the sector minimum,
`ebitda_margin_target` scaled for high-growth sectors and
`market_risk_premium` trimmed for regulated sectors.  Every OTHER key of the
returned assumption set carries exactly the caller's override value whenever
one was supplied, for all snapshots and all override sets. -/
theorem C5_overrides_last_write_wins (f : Snapshot) (o : Overrides)
    (now : String) :
    (∀ v, o.stage1_revenue_growth = some v →
      (generate_3stage_assumptions f o now).stage1_revenue_growth = v)
    ∧ (∀ v, o.stage1_years = some v →
      (generate_3stage_assumptions f o now).stage1_years = v)
    ∧ (∀ v, o.stage2_starting_growth = some v →
      (generate_3stage_assumptions f o now).stage2_starting_growth = v)
    ∧ (∀ v, o.stage2_ending_growth = some v →
      (generate_3stage_assumptions f o now).stage2_ending_growth = v)
    ∧ (∀ v, o.stage2_years = some v →
      (generate_3stage_assumptions f o now).stage2_years = v)
    ∧ (∀ v, o.ebitda_margin_current = some v →
      (generate_3stage_assumptions f o now).ebitda_margin_current = v)
    ∧ (∀ v, o.nwc_percent_revenue = some v →
      (generate_3stage_assumptions f o now).nwc_percent_revenue = v)
    ∧ (∀ v, o.depreciation_percent_revenue = some v →
      (generate_3stage_assumptions f o now).depreciation_percent_revenue = v)
    ∧ (∀ v, o.use_days_based_nwc = some v →
      (generate_3stage_assumptions f o now).use_days_based_nwc = v)
    ∧ (∀ v, o.dso_days = some v →
      (generate_3stage_assumptions f o now).dso_days = v)
    ∧ (∀ v, o.dio_days = some v →
      (generate_3stage_assumptions f o now).dio_days = v)
    ∧ (∀ v, o.dpo_days = some v →
      (generate_3stage_assumptions f o now).dpo_days = v)
    ∧ (∀ v, o.risk_free_rate = some v →
      (generate_3stage_assumptions f o now).risk_free_rate = v)
    ∧ (∀ v, o.beta = some v →
      (generate_3stage_assumptions f o now).beta = v)
    ∧ (∀ v, o.cost_of_debt = some v →
      (generate_3stage_assumptions f o now).cost_of_debt = v)
    ∧ (∀ v, o.tax_rate = some v →
      (generate_3stage_assumptions f o now).tax_rate = v)
    ∧ (∀ v, o.annual_buyback_rate = some v →
      (generate_3stage_assumptions f o now).annual_buyback_rate = v)
    ∧ (∀ v, o.annual_debt_paydown_rate = some v →
      (generate_3stage_assumptions f o now).annual_debt_paydown_rate = v)
    ∧ (∀ v, o.terminal_method = some v →
      (generate_3stage_assumptions f o now).terminal_method = v)
    ∧ (∀ v, o.exit_multiple_ev_ebitda = some v →
      (generate_3stage_assumptions f o now).exit_multiple_ev_ebitda = v)
    ∧ (∀ v, o.enable_dynamic_wacc = some v →
      (generate_3stage_assumptions f o now).enable_dynamic_wacc = v)
    ∧ (∀ v, o.economic_moat = some v →
      (generate_3stage_assumptions f o now).economic_moat = v)
    ∧ (∀ v, o.moat_score = some v →
      (generate_3stage_assumptions f o now).moat_score = v)
    ∧ (∀ v, o.analyst_revenue_growth_3y = some v →
      (generate_3stage_assumptions f o now).analyst_revenue_growth_3y = v)
    ∧ (∀ v, o.historical_revenue_growth_3y = some v →
      (generate_3stage_assumptions f o now).historical_revenue_growth_3y = v)
    ∧ (∀ v, o.generated_at = some v →
      (generate_3stage_assumptions f o now).generated_at = v) := by
  simp only [generate_3stage_assumptions, apply_industry_adjustments,
    apply_overrides]
  refine ⟨?_, ?_, ?_, ?_, ?_, ?_, ?_, ?_, ?_, ?_, ?_, ?_, ?_, ?_, ?_, ?_,
    ?_, ?_, ?_, ?_, ?_, ?_, ?_, ?_, ?_, ?_⟩ <;>
    (intro v hv; simp [hv])

/-- A concrete override set touching only adjustment-free keys. -/
def ovr_witness : Overrides :=
  { stage1_revenue_growth := some (7/100)
    beta := some 2
    tax_rate := some (1/4)
    terminal_method := some TMethod.gordon }

/-- Witness for the amended C5: four representative overridden keys come back
exactly as supplied. -/
theorem C5_overrides_last_write_wins_witness :
    ovr_witness.stage1_revenue_growth = some (7/100)
    ∧ (generate_3stage_assumptions snap_base ovr_witness
        ("t")).stage1_revenue_growth = 7/100
    ∧ ovr_witness.beta = some 2
    ∧ (generate_3stage_assumptions snap_base ovr_witness ("t")).beta = 2
    ∧ ovr_witness.tax_rate = some (1/4)
    ∧ (generate_3stage_assumptions snap_base ovr_witness ("t")).tax_rate = 1/4
    ∧ ovr_witness.terminal_method = some TMethod.gordon
    ∧ (generate_3stage_assumptions snap_base ovr_witness
        ("t")).terminal_method = TMethod.gordon := by
  obtain ⟨h1, _, _, _, _, _, _, _, _, _, _, _, _, h14, _, h16, _, _, h19, _⟩ :=
    C5_overrides_last_write_wins snap_base ovr_witness ("t")
  exact ⟨rfl, h1 _ rfl, rfl, h14 _ rfl, rfl, h16 _ rfl, rfl, h19 _ rfl⟩

/-- Every projected dollar of revenue in a `python-dcf` run contributes this
fixed coefficient to free cash flow (net income plus depreciation minus CapEx
minus working capital, per `python-dcf/main.py`, lines 342-364). -/
def pd_fcf_coeff (a : PDAssumptions) : ℚ :=
  (a.ebitda_margin_target - 3/100) * (1 - a.tax_rate_current) + 3/100
    - a.capex_as_percent_revenue - a.working_capital_as_percent_revenue

/-- Yearly free cash flow factors through the revenue and the coefficient. -/
theorem pd_fcf_at_eq (s : PDSnapshot) (a : PDAssumptions) (y : ℕ) :
    pd_fcf_at s a y = pd_proj_revenue s a y * pd_fcf_coeff a := by
  unfold pd_fcf_at pd_fcf_coeff
  ring

/-- Terminal free cash flow factors the same way. -/
theorem pd_terminal_fcf_eq (s : PDSnapshot) (a : PDAssumptions) :
    pd_terminal_fcf s a = pd_terminal_revenue s a * pd_fcf_coeff a := by
  unfold pd_terminal_fcf pd_fcf_coeff
  ring

/-- Assumption set with the three scenario-varied knobs replaced: stage-1
growth, target margin and risk-free rate. -/
def pd_with (a : PDAssumptions) (g m rf : ℚ) : PDAssumptions :=
  { a with
    revenue_growth_years_1_5 := g
    ebitda_margin_target := m
    risk_free_rate := rf }

/-- The clamped WACC of a `pd_with` variant depends only on the risk-free
knob (growth and margin do not enter the WACC formula). -/
theorem pd_wacc_clamped_with (a : PDAssumptions) (g m rf : ℚ) :
    pd_wacc_clamped (pd_with a g m rf)
      = max (3/100) (min (30/100) (pd_calculate_wacc rf a.beta
          a.market_risk_premium a.cost_of_debt a.debt_to_equity
          a.tax_rate_current)) := rfl

/-- The `python-dcf` WACC is monotone in the risk-free rate (for nonnegative
debt-to-equity). -/
theorem pd_calculate_wacc_mono_rf (a : PDAssumptions) (r₁ r₂ : ℚ)
    (hr : r₂ ≤ r₁) (hd : 0 ≤ a.debt_to_equity) :
    pd_calculate_wacc r₂ a.beta a.market_risk_premium a.cost_of_debt
        a.debt_to_equity a.tax_rate_current
      ≤ pd_calculate_wacc r₁ a.beta a.market_risk_premium a.cost_of_debt
        a.debt_to_equity a.tax_rate_current := by
  unfold pd_calculate_wacc
  have h1 : (0:ℚ) < 1 + a.debt_to_equity := by linarith
  have hw : (0:ℚ) ≤ 1 / (1 + a.debt_to_equity) := by positivity
  have h2 := mul_le_mul_of_nonneg_left hr hw
  nlinarith [h2]

/-- Clamped WACC ordering between two `pd_with` variants. -/
theorem pd_wacc_clamped_mono (a : PDAssumptions) (g₁ m₁ r₁ g₂ m₂ r₂ : ℚ)
    (hr : r₂ ≤ r₁) (hd : 0 ≤ a.debt_to_equity) :
    pd_wacc_clamped (pd_with a g₂ m₂ r₂) ≤ pd_wacc_clamped (pd_with a g₁ m₁ r₁) := by
  rw [pd_wacc_clamped_with, pd_wacc_clamped_with]
  exact max_le_max le_rfl
    (min_le_min le_rfl (pd_calculate_wacc_mono_rf a r₁ r₂ hr hd))

/-- Expanded view of the sum of discounted cash flows. -/
theorem pd_sum_dfcf_eq (s : PDSnapshot) (a : PDAssumptions) (w : ℚ) :
    pd_sum_dfcf s a w
      = ((List.range' 1 5).map (fun y => pd_fcf_at s a y / (1 + w) ^ y)).sum := by
  unfold pd_sum_dfcf pd_projections
  rw [List.map_map]
  rfl

/-- Core monotonicity of the `python-dcf` fair value: raising stage-1 growth
(kept above minus one hundred percent) and the target margin while lowering
the risk-free rate can only raise the price per share, provided revenue and
the FCF coefficient stay nonnegative, terminal growth stays strictly below
the (higher-side) clamped WACC, and the perpetuity method is in use. -/
theorem pd_price_mono (s : PDSnapshot) (a : PDAssumptions)
    (g₁ m₁ r₁ g₂ m₂ r₂ : ℚ)
    (hs : 0 < s.shares_outstanding) (hrev : 0 ≤ s.revenue)
    (hg : g₁ ≤ g₂) (hg1 : 0 ≤ 1 + g₁)
    (hm : m₁ ≤ m₂) (hr : r₂ ≤ r₁)
    (htax : a.tax_rate_current ≤ 1)
    (hd2e : 0 ≤ a.debt_to_equity)
    (htgnn : 0 ≤ 1 + a.terminal_growth_rate)
    (hC : 0 ≤ pd_fcf_coeff (pd_with a g₁ m₁ r₁))
    (htg : a.terminal_growth_rate < pd_wacc_clamped (pd_with a g₂ m₂ r₂))
    (hmeth : a.terminal_multiple_method = PDTMethod.perpetuity) :
    pd_price s (pd_with a g₁ m₁ r₁) ≤ pd_price s (pd_with a g₂ m₂ r₂) := by
  set A₁ := pd_with a g₁ m₁ r₁ with hA₁
  set A₂ := pd_with a g₂ m₂ r₂ with hA₂
  set w₁ := pd_wacc_clamped A₁ with hw₁
  set w₂ := pd_wacc_clamped A₂ with hw₂
  have hw21 : w₂ ≤ w₁ := pd_wacc_clamped_mono a g₁ m₁ r₁ g₂ m₂ r₂ hr hd2e
  have hw2lo : 3/100 ≤ w₂ := le_max_left _ _
  have hw1lo : 3/100 ≤ w₁ := le_max_left _ _
  have h1w2 : (0:ℚ) < 1 + w₂ := by linarith
  have h1w1 : (0:ℚ) < 1 + w₁ := by linarith
  have htg1 : a.terminal_growth_rate < w₁ := lt_of_lt_of_le htg hw21
  have hneg1 : ¬ (A₁.terminal_growth_rate ≥ pd_wacc_clamped A₁) :=
    not_le.mpr htg1
  have hneg2 : ¬ (A₂.terminal_growth_rate ≥ pd_wacc_clamped A₂) :=
    not_le.mpr htg
  have htu1 : pd_tg_used A₁ = a.terminal_growth_rate := by
    unfold pd_tg_used
    rw [if_neg hneg1]
    rfl
  have htu2 : pd_tg_used A₂ = a.terminal_growth_rate := by
    unfold pd_tg_used
    rw [if_neg hneg2]
    rfl
  have hg2nn : 0 ≤ 1 + g₂ := by linarith
  have hCC : pd_fcf_coeff A₁ ≤ pd_fcf_coeff A₂ := by
    have e1 : pd_fcf_coeff A₁
        = (m₁ - 3/100) * (1 - a.tax_rate_current) + 3/100
          - a.capex_as_percent_revenue
          - a.working_capital_as_percent_revenue := rfl
    have e2 : pd_fcf_coeff A₂
        = (m₂ - 3/100) * (1 - a.tax_rate_current) + 3/100
          - a.capex_as_percent_revenue
          - a.working_capital_as_percent_revenue := rfl
    rw [e1, e2]
    nlinarith [hm, htax]
  have hC2 : 0 ≤ pd_fcf_coeff A₂ := le_trans hC hCC
  have hrev1 : ∀ y : ℕ, 0 ≤ pd_proj_revenue s A₁ y := by
    intro y
    exact mul_nonneg hrev (pow_nonneg hg1 y)
  have hrev2 : ∀ y : ℕ, 0 ≤ pd_proj_revenue s A₂ y := by
    intro y
    exact mul_nonneg hrev (pow_nonneg hg2nn y)
  have hrevle : ∀ y : ℕ, pd_proj_revenue s A₁ y ≤ pd_proj_revenue s A₂ y := by
    intro y
    have hpow : ((1:ℚ) + g₁) ^ y ≤ ((1:ℚ) + g₂) ^ y :=
      pow_le_pow_left hg1 (by linarith) y
    exact mul_le_mul_of_nonneg_left hpow hrev
  have hfcf1 : ∀ y : ℕ, 0 ≤ pd_fcf_at s A₁ y := by
    intro y
    rw [pd_fcf_at_eq]
    exact mul_nonneg (hrev1 y) hC
  have hfcfle : ∀ y : ℕ, pd_fcf_at s A₁ y ≤ pd_fcf_at s A₂ y := by
    intro y
    rw [pd_fcf_at_eq, pd_fcf_at_eq]
    exact mul_le_mul (hrevle y) hCC hC (hrev2 y)
  have hfcf2 : ∀ y : ℕ, 0 ≤ pd_fcf_at s A₂ y := fun y =>
    le_trans (hfcf1 y) (hfcfle y)
  have hpowle : ∀ y : ℕ, (1 + w₂) ^ y ≤ (1 + w₁) ^ y := by
    intro y
    exact pow_le_pow_left (by linarith) (by linarith) y
  have hpow2 : ∀ y : ℕ, (0:ℚ) < (1 + w₂) ^ y := fun y => pow_pos h1w2 y
  have hsum : pd_sum_dfcf s A₁ w₁ ≤ pd_sum_dfcf s A₂ w₂ := by
    rw [pd_sum_dfcf_eq, pd_sum_dfcf_eq]
    refine List.sum_le_sum ?_
    intro y _
    exact div_le_div (hfcf2 y) (hfcfle y) (hpow2 y) (hpowle y)
  have htrev1 : 0 ≤ pd_terminal_revenue s A₁ := by
    unfold pd_terminal_revenue
    rw [htu1]
    exact mul_nonneg (hrev1 5) htgnn
  have htrevle : pd_terminal_revenue s A₁ ≤ pd_terminal_revenue s A₂ := by
    unfold pd_terminal_revenue
    rw [htu1, htu2]
    exact mul_le_mul_of_nonneg_right (hrevle 5) htgnn
  have htrev2 : 0 ≤ pd_terminal_revenue s A₂ := le_trans htrev1 htrevle
  have htf1 : 0 ≤ pd_terminal_fcf s A₁ := by
    rw [pd_terminal_fcf_eq]
    exact mul_nonneg htrev1 hC
  have htfle : pd_terminal_fcf s A₁ ≤ pd_terminal_fcf s A₂ := by
    rw [pd_terminal_fcf_eq, pd_terminal_fcf_eq]
    exact mul_le_mul htrevle hCC hC htrev2
  have htf2 : 0 ≤ pd_terminal_fcf s A₂ := le_trans htf1 htfle
  have hmeth1 : A₁.terminal_multiple_method = PDTMethod.perpetuity := hmeth
  have hmeth2 : A₂.terminal_multiple_method = PDTMethod.perpetuity := hmeth
  have htv : pd_terminal_value s A₁ w₁ ≤ pd_terminal_value s A₂ w₂ := by
    unfold pd_terminal_value
    rw [hmeth1, hmeth2]
    simp only [reduceCtorEq, if_false]
    rw [htu1, htu2]
    exact div_le_div htf2 htfle (by linarith) (by linarith)
  have htv2 : 0 ≤ pd_terminal_value s A₂ w₂ := by
    unfold pd_terminal_value
    rw [hmeth2]
    simp only [reduceCtorEq, if_false]
    rw [htu2]
    exact div_nonneg htf2 (by linarith)
  have hdtv : pd_dtv s A₁ w₁ ≤ pd_dtv s A₂ w₂ := by
    unfold pd_dtv
    exact div_le_div htv2 htv (hpow2 5) (hpowle 5)
  have hev : pd_enterprise_value s A₁ w₁ ≤ pd_enterprise_value s A₂ w₂ := by
    unfold pd_enterprise_value
    exact add_le_add hsum hdtv
  have heq : pd_equity_value s A₁ w₁ ≤ pd_equity_value s A₂ w₂ := by
    unfold pd_equity_value
    exact sub_le_sub_right hev _
  unfold pd_price
  exact (div_le_div_right hs).mpr heq

/-- C4 counterexample. On a declining-revenue snapshot (30 percent three-year
revenue contraction), the standard bull delta multiplies the negative growth
by 1.3 and makes it more negative, so the bull fair value falls BELOW the
base fair value; the bear delta (times 0.7, floored at minus five percent)
makes it less negative, so the bear fair value rises ABOVE base.  Both halves
of the claimed ordering fail, on a run that completes normally. -/
theorem C4_scenario_ordering_counterexample :
    pd_price pd_snap_declining (pd_adjust_for_scen pd_assum_declining PDScen.bull)
      < pd_price pd_snap_declining pd_assum_declining
    ∧ pd_price pd_snap_declining pd_assum_declining
      < pd_price pd_snap_declining (pd_adjust_for_scen pd_assum_declining PDScen.bear)
    ∧ (pd_calculate_dcf pd_snap_declining pd_assum_declining).isOk = true := by
  have hne : PDTMethod.perpetuity ≠ PDTMethod.exitMultiple := by
    intro h
    cases h
  refine ⟨?_, ?_, ?_⟩
  · norm_num [pd_price, pd_adjust_for_scen, pd_assum_declining,
      pd_generate_dcf_assumptions, pd_apply_overrides, pd_equity_value,
      pd_enterprise_value, pd_sum_dfcf, pd_projections, pd_proj_year,
      pd_fcf_at, pd_proj_revenue, pd_dtv, pd_terminal_value, pd_terminal_fcf,
      pd_terminal_revenue, pd_tg_used, pd_wacc_clamped, pd_calculate_wacc,
      pd_snap_declining, hne, List.range']
  · norm_num [pd_price, pd_adjust_for_scen, pd_assum_declining,
      pd_generate_dcf_assumptions, pd_apply_overrides, pd_equity_value,
      pd_enterprise_value, pd_sum_dfcf, pd_projections, pd_proj_year,
      pd_fcf_at, pd_proj_revenue, pd_dtv, pd_terminal_value, pd_terminal_fcf,
      pd_terminal_revenue, pd_tg_used, pd_wacc_clamped, pd_calculate_wacc,
      pd_snap_declining, hne, List.range']
  · have hpos : ¬ (pd_snap_declining.shares_outstanding ≤ 0) := by
      norm_num [pd_snap_declining]
    simp [pd_calculate_dcf, hpos, Except.isOk, Except.toBool]

/-- C4 amended. The claimed ordering does hold under the conditions the
counterexample shows to be necessary: nonnegative base revenue growth (at
most the 50 percent cap), a target EBITDA margin between 5 and 38 percent so
that the scenario margin deltas stay monotone, a nonnegative free-cash-flow
coefficient for the bear margin, terminal growth strictly below the bull
scenario's clamped WACC, nonnegative debt-to-equity, tax rate at most one,
and the perpetuity terminal method: then
bear fair value ≤ base fair value ≤ bull fair value. -/
theorem C4_scenario_ordering_amended (s : PDSnapshot) (a : PDAssumptions)
    (hs : 0 < s.shares_outstanding) (hrev : 0 ≤ s.revenue)
    (hg0 : 0 ≤ a.revenue_growth_years_1_5)
    (hg5 : a.revenue_growth_years_1_5 ≤ 50/100)
    (hm5 : 5/100 ≤ a.ebitda_margin_target)
    (hm38 : a.ebitda_margin_target ≤ 38/100)
    (htax : a.tax_rate_current ≤ 1)
    (hd2e : 0 ≤ a.debt_to_equity)
    (htgnn : 0 ≤ 1 + a.terminal_growth_rate)
    (hC : 0 ≤ pd_fcf_coeff (pd_adjust_for_scen a PDScen.bear))
    (htg : a.terminal_growth_rate
      < pd_wacc_clamped (pd_adjust_for_scen a PDScen.bull))
    (hmeth : a.terminal_multiple_method = PDTMethod.perpetuity) :
    pd_price s (pd_adjust_for_scen a PDScen.bear) ≤ pd_price s a
    ∧ pd_price s a ≤ pd_price s (pd_adjust_for_scen a PDScen.bull) := by
  have htg_base : a.terminal_growth_rate
      < pd_wacc_clamped (pd_with a a.revenue_growth_years_1_5
          a.ebitda_margin_target a.risk_free_rate) := by
    refine lt_of_lt_of_le htg ?_
    exact pd_wacc_clamped_mono a a.revenue_growth_years_1_5
      a.ebitda_margin_target a.risk_free_rate
      (min (a.revenue_growth_years_1_5 * (13/10)) (50/100))
      (min (a.ebitda_margin_target + 2/100) (40/100))
      (a.risk_free_rate - 1/100) (by linarith) hd2e
  have hC_base : 0 ≤ pd_fcf_coeff (pd_with a a.revenue_growth_years_1_5
      a.ebitda_margin_target a.risk_free_rate) := by
    have e1 : pd_fcf_coeff (pd_adjust_for_scen a PDScen.bear)
        = (max (a.ebitda_margin_target - 2/100) (5/100) - 3/100)
            * (1 - a.tax_rate_current) + 3/100
          - a.capex_as_percent_revenue
          - a.working_capital_as_percent_revenue := rfl
    have e2 : pd_fcf_coeff (pd_with a a.revenue_growth_years_1_5
        a.ebitda_margin_target a.risk_free_rate)
        = (a.ebitda_margin_target - 3/100) * (1 - a.tax_rate_current) + 3/100
          - a.capex_as_percent_revenue
          - a.working_capital_as_percent_revenue := rfl
    have hmx : max (a.ebitda_margin_target - 2/100) (5/100)
        ≤ a.ebitda_margin_target := max_le (by linarith) hm5
    rw [e1] at hC
    rw [e2]
    nlinarith [hC, hmx, htax]
  constructor
  · exact pd_price_mono s a
      (max (a.revenue_growth_years_1_5 * (7/10)) (-(5/100)))
      (max (a.ebitda_margin_target - 2/100) (5/100))
      (a.risk_free_rate + 1/100)
      a.revenue_growth_years_1_5 a.ebitda_margin_target a.risk_free_rate
      hs hrev
      (max_le (by linarith) (by linarith))
      (by
        have := le_max_right (a.revenue_growth_years_1_5 * (7/10)) (-(5/100))
        linarith)
      (max_le (by linarith) hm5)
      (by linarith)
      htax hd2e htgnn hC htg_base hmeth
  · exact pd_price_mono s a
      a.revenue_growth_years_1_5 a.ebitda_margin_target a.risk_free_rate
      (min (a.revenue_growth_years_1_5 * (13/10)) (50/100))
      (min (a.ebitda_margin_target + 2/100) (40/100))
      (a.risk_free_rate - 1/100)
      hs hrev
      (le_min (by linarith) hg5)
      (by linarith)
      (le_min (by linarith) (by linarith))
      (by linarith)
      htax hd2e htgnn hC_base htg hmeth

/-- Witness for the amended C4 at the concrete base snapshot with its
generated default assumptions: the ordering holds there. -/
theorem C4_scenario_ordering_amended_witness :
    (0 < pd_snap_base.shares_outstanding ∧ 0 ≤ pd_snap_base.revenue
      ∧ 0 ≤ pd_assum_base.revenue_growth_years_1_5
      ∧ pd_assum_base.revenue_growth_years_1_5 ≤ 50/100
      ∧ 5/100 ≤ pd_assum_base.ebitda_margin_target
      ∧ pd_assum_base.ebitda_margin_target ≤ 38/100
      ∧ pd_assum_base.tax_rate_current ≤ 1
      ∧ 0 ≤ pd_assum_base.debt_to_equity
      ∧ 0 ≤ 1 + pd_assum_base.terminal_growth_rate
      ∧ 0 ≤ pd_fcf_coeff (pd_adjust_for_scen pd_assum_base PDScen.bear)
      ∧ pd_assum_base.terminal_growth_rate
          < pd_wacc_clamped (pd_adjust_for_scen pd_assum_base PDScen.bull)
      ∧ pd_assum_base.terminal_multiple_method = PDTMethod.perpetuity)
    ∧ (pd_price pd_snap_base (pd_adjust_for_scen pd_assum_base PDScen.bear)
        ≤ pd_price pd_snap_base pd_assum_base
      ∧ pd_price pd_snap_base pd_assum_base
        ≤ pd_price pd_snap_base (pd_adjust_for_scen pd_assum_base PDScen.bull)) := by
  have h1 : 0 < pd_snap_base.shares_outstanding := by norm_num [pd_snap_base]
  have h2 : 0 ≤ pd_snap_base.revenue := by norm_num [pd_snap_base]
  have h3 : 0 ≤ pd_assum_base.revenue_growth_years_1_5 := by
    norm_num [pd_assum_base, pd_generate_dcf_assumptions, pd_apply_overrides,
      pd_calculate_wacc, pd_snap_base]
  have h4 : pd_assum_base.revenue_growth_years_1_5 ≤ 50/100 := by
    norm_num [pd_assum_base, pd_generate_dcf_assumptions, pd_apply_overrides,
      pd_calculate_wacc, pd_snap_base]
  have h5 : 5/100 ≤ pd_assum_base.ebitda_margin_target := by
    norm_num [pd_assum_base, pd_generate_dcf_assumptions, pd_apply_overrides,
      pd_calculate_wacc, pd_snap_base]
  have h6 : pd_assum_base.ebitda_margin_target ≤ 38/100 := by
    norm_num [pd_assum_base, pd_generate_dcf_assumptions, pd_apply_overrides,
      pd_calculate_wacc, pd_snap_base]
  have h7 : pd_assum_base.tax_rate_current ≤ 1 := by
    norm_num [pd_assum_base, pd_generate_dcf_assumptions, pd_apply_overrides,
      pd_calculate_wacc, pd_snap_base]
  have h8 : 0 ≤ pd_assum_base.debt_to_equity := by
    norm_num [pd_assum_base, pd_generate_dcf_assumptions, pd_apply_overrides,
      pd_calculate_wacc, pd_snap_base]
  have h9 : 0 ≤ 1 + pd_assum_base.terminal_growth_rate := by
    norm_num [pd_assum_base, pd_generate_dcf_assumptions, pd_apply_overrides,
      pd_calculate_wacc, pd_snap_base]
  have h10 : 0 ≤ pd_fcf_coeff (pd_adjust_for_scen pd_assum_base PDScen.bear) := by
    norm_num [pd_fcf_coeff, pd_adjust_for_scen, pd_assum_base,
      pd_generate_dcf_assumptions, pd_apply_overrides, pd_calculate_wacc,
      pd_snap_base]
  have h11 : pd_assum_base.terminal_growth_rate
      < pd_wacc_clamped (pd_adjust_for_scen pd_assum_base PDScen.bull) := by
    norm_num [pd_wacc_clamped, pd_adjust_for_scen, pd_assum_base,
      pd_generate_dcf_assumptions, pd_apply_overrides, pd_calculate_wacc,
      pd_snap_base]
  have h12 : pd_assum_base.terminal_multiple_method = PDTMethod.perpetuity := by
    norm_num [pd_assum_base, pd_generate_dcf_assumptions, pd_apply_overrides,
      pd_calculate_wacc, pd_snap_base]
  exact ⟨⟨h1, h2, h3, h4, h5, h6, h7, h8, h9, h10, h11, h12⟩,
    C4_scenario_ordering_amended pd_snap_base pd_assum_base
      h1 h2 h3 h4 h5 h6 h7 h8 h9 h10 h11 h12⟩

/-- The terminal growth field is not read by the effective-growth rule. -/
theorem eff_growth_tg_inv (a : Assumptions) (g y) :
    eff_growth { a with terminal_growth := g } y = eff_growth a y := rfl

/-- The terminal growth field is not read by the revenue recursion. -/
theorem proj_revenue_tg_inv (f : Snapshot) (a : Assumptions) (g : ℚ) :
    ∀ y, proj_revenue f { a with terminal_growth := g } y = proj_revenue f a y := by
  intro y
  induction y with
  | zero => rfl
  | succ n ih =>
    simp only [proj_revenue, eff_growth_tg_inv]
    rw [ih]

/-- The terminal growth field is not read when building a projection row. -/
theorem proj_year_tg_inv (f : Snapshot) (a : Assumptions) (w g : ℚ) (y : ℕ) :
    proj_year f { a with terminal_growth := g } w y = proj_year f a w y := by
  unfold proj_year fcf_at nwc_change_at nwc_prior_revenue
  simp only [proj_revenue_tg_inv]
  rfl

/-- The terminal growth field is not read by the projection table builder. -/
theorem projections_tg_inv (f : Snapshot) (a : Assumptions) (w g : ℚ) :
    projections f { a with terminal_growth := g } w = projections f a w := by
  unfold projections
  rw [funext (proj_year_tg_inv f a w g)]

/-- The terminal growth field does not enter the explicit-horizon PV sum. -/
theorem sum_pv_fcf_tg_inv (f : Snapshot) (a : Assumptions) (w g : ℚ) :
    sum_pv_fcf f { a with terminal_growth := g } w = sum_pv_fcf f a w := by
  unfold sum_pv_fcf
  rw [projections_tg_inv]

/-- Per-dollar-of-revenue-change coefficient of the working-capital delta:
the days-based linear coefficient, or the flat share of revenue change
(`python-unified/main.py`, lines 860-897 and 1459). -/
def nwc_coeff (f : Snapshot) (a : Assumptions) : ℚ :=
  if a.use_days_based_nwc then
    (a.dso_days + (a.dio_days - a.dpo_days) * cogs_margin f) / 365
  else a.nwc_percent_revenue

/-- Per-dollar-of-terminal-revenue coefficient of the raw terminal free cash
flow (everything except the working-capital carry-back from year 10). -/
def terminal_fcf_coeff (f : Snapshot) (a : Assumptions) : ℚ :=
  (a.ebitda_margin_target - a.depreciation_percent_revenue) * (1 - a.tax_rate)
    + a.depreciation_percent_revenue - a.capex_percent_revenue
    - nwc_coeff f a

/-- The raw terminal free cash flow is linear in the used terminal growth:
`raw = y10 * ((1 + g) * K + c)` with `K` the terminal coefficient and `c` the
working-capital coefficient, whenever year-10 revenue and the used growth are
nonnegative (so the `max(0, ·)` guards inside the COGS computation vanish). -/
theorem terminal_fcf_raw_eq (f : Snapshot) (a : Assumptions) (w : ℚ)
    (h10 : 0 ≤ proj_revenue f a 10) (htg : 0 ≤ terminal_growth_used a w) :
    terminal_fcf_raw f a w
      = proj_revenue f a 10
        * ((1 + terminal_growth_used a w) * terminal_fcf_coeff f a
          + nwc_coeff f a) := by
  have hcm : 0 ≤ cogs_margin f := le_max_left 0 _
  have h11 : 0 ≤ terminal_revenue f a w := by
    unfold terminal_revenue
    exact mul_nonneg h10 (by linarith)
  have hm11 : max 0 (terminal_revenue f a w * cogs_margin f)
      = terminal_revenue f a w * cogs_margin f :=
    max_eq_right (mul_nonneg h11 hcm)
  have hm10 : max 0 (proj_revenue f a 10 * cogs_margin f)
      = proj_revenue f a 10 * cogs_margin f :=
    max_eq_right (mul_nonneg h10 hcm)
  unfold terminal_fcf_raw terminal_fcf_coeff nwc_coeff
  unfold calculate_working_capital_change_from_days
  cases hb : a.use_days_based_nwc with
  | true =>
    simp only [hb, if_true, hm11, hm10]
    unfold terminal_revenue
    ring
  | false =>
    simp only [hb, if_false, Bool.false_eq_true]
    unfold terminal_revenue
    ring

/-- Terminal value under the Gordon method. -/
theorem terminal_value_eq_gordon (f : Snapshot) (a : Assumptions) (w : ℚ)
    (h : a.terminal_method = TMethod.gordon) :
    terminal_value f a w = tv_gordon f a w := by
  unfold terminal_value
  rw [h]

/-- Terminal value under the exit-multiple method. -/
theorem terminal_value_eq_exit (f : Snapshot) (a : Assumptions) (w : ℚ)
    (h : a.terminal_method = TMethod.exitMultiple) :
    terminal_value f a w
      = calculate_terminal_value_exit_multiple
          (terminal_revenue f a w * a.ebitda_margin_target)
          (exit_multiple_or_default a.exit_multiple_ev_ebitda) := by
  unfold terminal_value tv_exit_opt
  rw [h]
  simp

/-- Terminal value under the `both` method: the arithmetic mean. -/
theorem terminal_value_eq_both (f : Snapshot) (a : Assumptions) (w : ℚ)
    (h : a.terminal_method = TMethod.both) :
    terminal_value f a w
      = (tv_gordon f a w
          + calculate_terminal_value_exit_multiple
              (terminal_revenue f a w * a.ebitda_margin_target)
              (exit_multiple_or_default a.exit_multiple_ev_ebitda)) / 2 := by
  unfold terminal_value tv_exit_opt
  rw [h]
  simp

/-- The clamped exit multiple is at least three. -/
theorem exit_multiple_clamped_pos (em : ℚ) :
    0 < max 3 (min 30 (if em = 0 then 10 else em)) :=
  lt_of_lt_of_le (by norm_num) (le_max_left _ _)

/-- Fair value per share at a fixed discount rate is strictly increasing in
the terminal growth rate, under the hypotheses of the amended C7. -/
theorem price_strict_mono_in_tg (f : Snapshot) (a : Assumptions) (w g₂ : ℚ)
    (h0 : 0 ≤ a.terminal_growth) (h12 : a.terminal_growth < g₂)
    (h8 : g₂ ≤ 8/100) (hw : g₂ < w)
    (h10 : 0 < proj_revenue f a 10)
    (hmt : 0 < a.ebitda_margin_target)
    (hK : 0 ≤ terminal_fcf_coeff f a)
    (hraw : 0 < terminal_fcf_raw f a w)
    (h80a : tv_percent_pre f a w ≤ 80/100)
    (h80b : tv_percent_pre f { a with terminal_growth := g₂ } w ≤ 80/100)
    (hcapa : implied_market_cap f a w ≤ 5000000000000)
    (hcapb : implied_market_cap f { a with terminal_growth := g₂ } w
      ≤ 5000000000000) :
    price_given_wacc f a w
      < price_given_wacc f { a with terminal_growth := g₂ } w := by
  set a₂ : Assumptions := { a with terminal_growth := g₂ } with ha₂
  have hg1w : a.terminal_growth < w := lt_trans h12 hw
  have hg18 : a.terminal_growth ≤ 8/100 := le_of_lt (lt_of_lt_of_le h12 h8)
  have hg20 : 0 ≤ g₂ := le_trans h0 (le_of_lt h12)
  have hwpos : 0 < w := lt_of_le_of_lt hg20 hw
  have htu1 : terminal_growth_used a w = a.terminal_growth :=
    validate_terminal_growth_id a.terminal_growth w h0 hg18 hg1w
  have htu2 : terminal_growth_used a₂ w = g₂ :=
    validate_terminal_growth_id g₂ w hg20 h8 hw
  have h10eq : proj_revenue f a₂ 10 = proj_revenue f a 10 :=
    proj_revenue_tg_inv f a g₂ 10
  have hKeq : terminal_fcf_coeff f a₂ = terminal_fcf_coeff f a := rfl
  have hceq : nwc_coeff f a₂ = nwc_coeff f a := rfl
  have hraw1 : terminal_fcf_raw f a w
      = proj_revenue f a 10
        * ((1 + a.terminal_growth) * terminal_fcf_coeff f a + nwc_coeff f a) := by
    rw [terminal_fcf_raw_eq f a w (le_of_lt h10) (by rw [htu1]; exact h0), htu1]
  have hraw2 : terminal_fcf_raw f a₂ w
      = proj_revenue f a 10
        * ((1 + g₂) * terminal_fcf_coeff f a + nwc_coeff f a) := by
    rw [terminal_fcf_raw_eq f a₂ w (by rw [h10eq]; exact le_of_lt h10)
      (by rw [htu2]; exact hg20), htu2, h10eq, hKeq, hceq]
  have hrawle : terminal_fcf_raw f a w ≤ terminal_fcf_raw f a₂ w := by
    rw [hraw1, hraw2]
    nlinarith [mul_nonneg (le_of_lt h10)
      (mul_nonneg (sub_nonneg.mpr (le_of_lt h12)) hK)]
  have hraw2pos : 0 < terminal_fcf_raw f a₂ w := lt_of_lt_of_le hraw hrawle
  have hfcf1 : terminal_fcf f a w = terminal_fcf_raw f a w := by
    unfold terminal_fcf
    rw [if_neg (not_le.mpr hraw)]
  have hfcf2 : terminal_fcf f a₂ w = terminal_fcf_raw f a₂ w := by
    unfold terminal_fcf
    rw [if_neg (not_le.mpr hraw2pos)]
  have hsub1 : 0 < w - a.terminal_growth := sub_pos.mpr hg1w
  have hsub2 : 0 < w - g₂ := sub_pos.mpr hw
  have hsub21 : w - g₂ < w - a.terminal_growth := by linarith
  have hG : tv_gordon f a w < tv_gordon f a₂ w := by
    unfold tv_gordon
    rw [htu1, htu2, hfcf1, hfcf2]
    calc terminal_fcf_raw f a w / (w - a.terminal_growth)
        < terminal_fcf_raw f a w / (w - g₂) :=
          div_lt_div_of_pos_left hraw hsub2 hsub21
      _ ≤ terminal_fcf_raw f a₂ w / (w - g₂) :=
          (div_le_div_right hsub2).mpr hrawle
  have h11lt : terminal_revenue f a w < terminal_revenue f a₂ w := by
    unfold terminal_revenue
    rw [htu1, htu2, h10eq]
    exact mul_lt_mul_of_pos_left (by linarith) h10
  have hX : calculate_terminal_value_exit_multiple
        (terminal_revenue f a w * a.ebitda_margin_target)
        (exit_multiple_or_default a.exit_multiple_ev_ebitda)
      < calculate_terminal_value_exit_multiple
        (terminal_revenue f a₂ w * a₂.ebitda_margin_target)
        (exit_multiple_or_default a₂.exit_multiple_ev_ebitda) := by
    show terminal_revenue f a w * a.ebitda_margin_target
        * max 3 (min 30 (if exit_multiple_or_default a.exit_multiple_ev_ebitda = 0
            then 10 else exit_multiple_or_default a.exit_multiple_ev_ebitda))
      < terminal_revenue f a₂ w * a.ebitda_margin_target
        * max 3 (min 30 (if exit_multiple_or_default a.exit_multiple_ev_ebitda = 0
            then 10 else exit_multiple_or_default a.exit_multiple_ev_ebitda))
    exact mul_lt_mul_of_pos_right
      (mul_lt_mul_of_pos_right h11lt hmt)
      (exit_multiple_clamped_pos _)
  have hmeq : a₂.terminal_method = a.terminal_method := rfl
  have htv : terminal_value f a w < terminal_value f a₂ w := by
    cases hm : a.terminal_method with
    | gordon =>
      rw [terminal_value_eq_gordon f a w hm,
        terminal_value_eq_gordon f a₂ w (hmeq.trans hm)]
      exact hG
    | exitMultiple =>
      rw [terminal_value_eq_exit f a w hm,
        terminal_value_eq_exit f a₂ w (hmeq.trans hm)]
      exact hX
    | both =>
      rw [terminal_value_eq_both f a w hm,
        terminal_value_eq_both f a₂ w (hmeq.trans hm)]
      linarith
  have hpow : (0:ℚ) < (1 + w) ^ 10 := pow_pos (by linarith) 10
  have hpv : pv_terminal_value_pre f a w < pv_terminal_value_pre f a₂ w := by
    unfold pv_terminal_value_pre
    exact (div_lt_div_right hpow).mpr htv
  have hev : enterprise_value_post f a w < enterprise_value_post f a₂ w := by
    unfold enterprise_value_post pv_terminal_value_post
    rw [if_neg (not_lt.mpr h80a), if_neg (not_lt.mpr h80b),
      sum_pv_fcf_tg_inv]
    exact add_lt_add_left hpv _
  have hnd : net_debt f a₂ = net_debt f a := rfl
  have heq : equity_value f a w < equity_value f a₂ w := by
    unfold equity_value
    rw [hnd]
    exact sub_lt_sub_right hev _
  have hfs : final_shares f a₂ = final_shares f a := rfl
  have hfspos : (0:ℚ) < final_shares f a :=
    lt_of_lt_of_le one_pos (le_max_left _ _)
  have hpre : price_pre_cap f a w < price_pre_cap f a₂ w := by
    unfold price_pre_cap
    rw [hfs]
    exact (div_lt_div_right hfspos).mpr heq
  unfold price_given_wacc
  rw [if_neg (not_lt.mpr hcapa), if_neg (not_lt.mpr hcapb)]
  exact hpre

/-- The ten-year PV sum, written directly over years. -/
theorem sum_pv_fcf_eq_map (f : Snapshot) (a : Assumptions) (w : ℚ) :
    sum_pv_fcf f a w
      = ((List.range' 1 10).map (fun y => fcf_at f a y / (1 + w) ^ y)).sum := by
  unfold sum_pv_fcf projections
  rw [List.map_map]
  rfl

/-- Fair value per share is strictly decreasing in the discount rate, under
the hypotheses of the amended C7. -/
theorem price_strict_anti_in_wacc (f : Snapshot) (a : Assumptions) (w₁ w₂ : ℚ)
    (h0 : 0 ≤ a.terminal_growth) (h8 : a.terminal_growth ≤ 8/100)
    (hg1 : a.terminal_growth < w₁) (h12 : w₁ < w₂)
    (hfcfs : ∀ y ∈ List.range' 1 10, 0 ≤ fcf_at f a y)
    (hfcfT : 0 < terminal_fcf f a w₁)
    (hmt : 0 < a.ebitda_margin_target)
    (h10 : 0 < proj_revenue f a 10)
    (h80a : tv_percent_pre f a w₁ ≤ 80/100)
    (h80b : tv_percent_pre f a w₂ ≤ 80/100)
    (hcapa : implied_market_cap f a w₁ ≤ 5000000000000)
    (hcapb : implied_market_cap f a w₂ ≤ 5000000000000) :
    price_given_wacc f a w₂ < price_given_wacc f a w₁ := by
  have hg2 : a.terminal_growth < w₂ := lt_trans hg1 h12
  have hw1pos : 0 < w₁ := lt_of_le_of_lt h0 hg1
  have htu1 : terminal_growth_used a w₁ = a.terminal_growth :=
    validate_terminal_growth_id a.terminal_growth w₁ h0 h8 hg1
  have htu2 : terminal_growth_used a w₂ = a.terminal_growth :=
    validate_terminal_growth_id a.terminal_growth w₂ h0 h8 hg2
  have htrev : terminal_revenue f a w₂ = terminal_revenue f a w₁ := by
    unfold terminal_revenue
    rw [htu1, htu2]
  have hrawe : terminal_fcf_raw f a w₂ = terminal_fcf_raw f a w₁ := by
    unfold terminal_fcf_raw
    rw [htrev]
  have hfcfe : terminal_fcf f a w₂ = terminal_fcf f a w₁ := by
    unfold terminal_fcf
    rw [hrawe, htrev]
  have hfcfT2 : 0 < terminal_fcf f a w₂ := hfcfe ▸ hfcfT
  have htrevpos : 0 < terminal_revenue f a w₁ := by
    unfold terminal_revenue
    rw [htu1]
    exact mul_pos h10 (by linarith)
  have hG : tv_gordon f a w₂ < tv_gordon f a w₁ := by
    unfold tv_gordon
    rw [htu1, htu2, hfcfe]
    exact div_lt_div_of_pos_left hfcfT (sub_pos.mpr hg1) (by linarith)
  have hGpos : 0 < tv_gordon f a w₁ := by
    unfold tv_gordon
    rw [htu1]
    exact div_pos hfcfT (sub_pos.mpr hg1)
  have hXe : calculate_terminal_value_exit_multiple
        (terminal_revenue f a w₂ * a.ebitda_margin_target)
        (exit_multiple_or_default a.exit_multiple_ev_ebitda)
      = calculate_terminal_value_exit_multiple
        (terminal_revenue f a w₁ * a.ebitda_margin_target)
        (exit_multiple_or_default a.exit_multiple_ev_ebitda) := by
    rw [htrev]
  have hXpos : 0 < calculate_terminal_value_exit_multiple
      (terminal_revenue f a w₁ * a.ebitda_margin_target)
      (exit_multiple_or_default a.exit_multiple_ev_ebitda) := by
    show 0 < terminal_revenue f a w₁ * a.ebitda_margin_target
      * max 3 (min 30 (if exit_multiple_or_default a.exit_multiple_ev_ebitda = 0
          then 10 else exit_multiple_or_default a.exit_multiple_ev_ebitda))
    exact mul_pos (mul_pos htrevpos hmt) (exit_multiple_clamped_pos _)
  have htvle : terminal_value f a w₂ ≤ terminal_value f a w₁ := by
    cases hm : a.terminal_method with
    | gordon =>
      rw [terminal_value_eq_gordon f a w₁ hm, terminal_value_eq_gordon f a w₂ hm]
      exact le_of_lt hG
    | exitMultiple =>
      rw [terminal_value_eq_exit f a w₁ hm, terminal_value_eq_exit f a w₂ hm]
      exact le_of_eq hXe
    | both =>
      rw [terminal_value_eq_both f a w₁ hm, terminal_value_eq_both f a w₂ hm]
      linarith
  have htv2pos : 0 < terminal_value f a w₂ := by
    cases hm : a.terminal_method with
    | gordon =>
      rw [terminal_value_eq_gordon f a w₂ hm]
      unfold tv_gordon
      rw [htu2, hfcfe]
      exact div_pos hfcfT (sub_pos.mpr hg2)
    | exitMultiple =>
      rw [terminal_value_eq_exit f a w₂ hm, hXe]
      exact hXpos
    | both =>
      rw [terminal_value_eq_both f a w₂ hm]
      have hG2pos : 0 < tv_gordon f a w₂ := by
        unfold tv_gordon
        rw [htu2, hfcfe]
        exact div_pos hfcfT (sub_pos.mpr hg2)
      rw [hXe]
      linarith
  have hD1pos : (0:ℚ) < (1 + w₁) ^ 10 := pow_pos (by linarith) 10
  have hDlt : (1 + w₁) ^ 10 < (1 + w₂) ^ 10 :=
    pow_lt_pow_left (by linarith) (by linarith) (by norm_num)
  have hpv : pv_terminal_value_pre f a w₂ < pv_terminal_value_pre f a w₁ := by
    unfold pv_terminal_value_pre
    calc terminal_value f a w₂ / (1 + w₂) ^ 10
        < terminal_value f a w₂ / (1 + w₁) ^ 10 :=
          div_lt_div_of_pos_left htv2pos hD1pos hDlt
      _ ≤ terminal_value f a w₁ / (1 + w₁) ^ 10 :=
          (div_le_div_right hD1pos).mpr htvle
  have hsum : sum_pv_fcf f a w₂ ≤ sum_pv_fcf f a w₁ := by
    rw [sum_pv_fcf_eq_map, sum_pv_fcf_eq_map]
    refine List.sum_le_sum ?_
    intro y hy
    exact div_le_div (hfcfs y hy) le_rfl (pow_pos (by linarith) y)
      (pow_le_pow_left (by linarith) (by linarith) y)
  have hev : enterprise_value_post f a w₂ < enterprise_value_post f a w₁ := by
    unfold enterprise_value_post pv_terminal_value_post
    rw [if_neg (not_lt.mpr h80a), if_neg (not_lt.mpr h80b)]
    exact add_lt_add_of_le_of_lt hsum hpv
  have heq : equity_value f a w₂ < equity_value f a w₁ := by
    unfold equity_value
    exact sub_lt_sub_right hev _
  have hfspos : (0:ℚ) < final_shares f a :=
    lt_of_lt_of_le one_pos (le_max_left _ _)
  have hpre : price_pre_cap f a w₂ < price_pre_cap f a w₁ := by
    unfold price_pre_cap
    exact (div_lt_div_right hfspos).mpr heq
  unfold price_given_wacc
  rw [if_neg (not_lt.mpr hcapa), if_neg (not_lt.mpr hcapb)]
  exact hpre

/-- C7 counterexample. Price per share is NOT strictly increasing in the
terminal growth rate: on a mega-cap snapshot whose implied market cap exceeds
the five-trillion-dollar sanity cap, raising terminal growth from 3 percent to
4 percent (both below the 11 percent discount rate, so neither is clamped)
leaves the reported price unchanged at the capped value, because the price is
rescaled to pin the market cap at exactly five trillion in both runs. -/
theorem C7_monotonicity_counterexample :
    assum_base.terminal_growth < 1/25
    ∧ (1/25 : ℚ) < wacc_used snap_cap assum_base
    ∧ wacc_used snap_cap { assum_base with terminal_growth := 1/25 }
        = wacc_used snap_cap assum_base
    ∧ price_given_wacc snap_cap { assum_base with terminal_growth := 1/25 }
        (wacc_used snap_cap { assum_base with terminal_growth := 1/25 })
      = price_given_wacc snap_cap assum_base (wacc_used snap_cap assum_base) := by
  refine ⟨by norm_num [assum_base], ?_, rfl, ?_⟩
  · norm_num [wacc_used, wacc_static, calculate_wacc,
      maybe_calculate_dynamic_wacc, snap_cap, snap_base, assum_base]
  · norm_num [price_given_wacc, implied_market_cap, price_pre_cap,
      equity_value, final_shares, buyback_rate, paydown_rate, net_debt,
      enterprise_value_post, pv_terminal_value_post, tv_percent_pre,
      enterprise_value_pre, pv_terminal_value_pre, sum_pv_fcf, projections,
      proj_year, fcf_at, nwc_change_at, nwc_prior_revenue, cogs_margin,
      proj_margin, proj_revenue, eff_growth, terminal_value, tv_gordon,
      tv_exit_opt, terminal_fcf, terminal_fcf_raw, terminal_revenue,
      terminal_growth_used, validate_terminal_growth, wacc_used, wacc_static,
      calculate_wacc, maybe_calculate_dynamic_wacc, List.range',
      snap_cap, snap_base, assum_base]

/-- C7 amended. Away from the clamps and caps, fair value per share is
strictly monotone in the assumptions in the expected directions. (a) Growth:
if the current and raised terminal growth rates are both accepted unchanged by
`validate_terminal_growth` (nonnegative, at most 8 percent, below the discount
rate), year-10 revenue and the target margin are positive, the per-revenue
terminal cash-flow coefficient is nonnegative, the raw terminal cash flow is
positive, and neither run trips the 80 percent terminal-dominance haircut or
the five-trillion market-cap cap, then raising the terminal growth rate
strictly raises the price. (b) Rate: if additionally every explicit-year cash
flow is nonnegative and the terminal cash flow is positive, raising the
discount rate from `w₁` to `w₂` (both above the accepted terminal growth)
strictly lowers the price. -/
theorem C7_monotonicity_amended (f : Snapshot) (a : Assumptions)
    (w w₁ w₂ g₂ : ℚ) :
    (0 ≤ a.terminal_growth → a.terminal_growth < g₂ → g₂ ≤ 8/100 → g₂ < w →
      0 < proj_revenue f a 10 → 0 < a.ebitda_margin_target →
      0 ≤ terminal_fcf_coeff f a → 0 < terminal_fcf_raw f a w →
      tv_percent_pre f a w ≤ 80/100 →
      tv_percent_pre f { a with terminal_growth := g₂ } w ≤ 80/100 →
      implied_market_cap f a w ≤ 5000000000000 →
      implied_market_cap f { a with terminal_growth := g₂ } w
        ≤ 5000000000000 →
      price_given_wacc f a w
        < price_given_wacc f { a with terminal_growth := g₂ } w)
    ∧ (0 ≤ a.terminal_growth → a.terminal_growth ≤ 8/100 →
      a.terminal_growth < w₁ → w₁ < w₂ →
      (∀ y ∈ List.range' 1 10, 0 ≤ fcf_at f a y) →
      0 < terminal_fcf f a w₁ → 0 < a.ebitda_margin_target →
      0 < proj_revenue f a 10 →
      tv_percent_pre f a w₁ ≤ 80/100 → tv_percent_pre f a w₂ ≤ 80/100 →
      implied_market_cap f a w₁ ≤ 5000000000000 →
      implied_market_cap f a w₂ ≤ 5000000000000 →
      price_given_wacc f a w₂ < price_given_wacc f a w₁) :=
  ⟨fun h0 h12 h8 hw h10 hmt hK hraw h80a h80b hca hcb =>
    price_strict_mono_in_tg f a w g₂ h0 h12 h8 hw h10 hmt hK hraw
      h80a h80b hca hcb,
   fun h0 h8 hg1 h12 hfcfs hfcfT hmt h10 h80a h80b hca hcb =>
    price_strict_anti_in_wacc f a w₁ w₂ h0 h8 hg1 h12 hfcfs hfcfT hmt h10
      h80a h80b hca hcb⟩

set_option maxHeartbeats 2000000 in
/-- Witness for the amended C7 on the concrete base inputs: raising terminal
growth from 3 to 4 percent at a 10 percent rate strictly raises the price, and
raising the rate from 10 to 11 percent strictly lowers it. -/
theorem C7_monotonicity_amended_witness :
    (assum_base.terminal_growth < 1/25 ∧ (1/25 : ℚ) < 1/10
      ∧ tv_percent_pre snap_base assum_base (1/10) ≤ 80/100
      ∧ implied_market_cap snap_base assum_base (1/10) ≤ 5000000000000)
    ∧ price_given_wacc snap_base assum_base (1/10)
        < price_given_wacc snap_base
            { assum_base with terminal_growth := 1/25 } (1/10)
    ∧ price_given_wacc snap_base assum_base (11/100)
        < price_given_wacc snap_base assum_base (1/10) := by
  have h0 : (0:ℚ) ≤ assum_base.terminal_growth := by norm_num [assum_base]
  have h12 : assum_base.terminal_growth < 1/25 := by norm_num [assum_base]
  have h8 : (1/25 : ℚ) ≤ 8/100 := by norm_num
  have hw : (1/25 : ℚ) < 1/10 := by norm_num
  have h10 : 0 < proj_revenue snap_base assum_base 10 := by
    norm_num [proj_revenue, eff_growth, snap_base, assum_base]
  have hmt : 0 < assum_base.ebitda_margin_target := by norm_num [assum_base]
  have hK : 0 ≤ terminal_fcf_coeff snap_base assum_base := by
    norm_num [terminal_fcf_coeff, nwc_coeff, assum_base]
  have hraw : 0 < terminal_fcf_raw snap_base assum_base (1/10) := by
    norm_num [terminal_fcf_raw, terminal_revenue, terminal_growth_used,
      validate_terminal_growth, proj_revenue, eff_growth, cogs_margin,
      snap_base, assum_base]
  have h80a : tv_percent_pre snap_base assum_base (1/10) ≤ 80/100 := by
    norm_num [tv_percent_pre, enterprise_value_pre, pv_terminal_value_pre,
      sum_pv_fcf, projections, proj_year, fcf_at, nwc_change_at,
      nwc_prior_revenue, cogs_margin, proj_margin, proj_revenue, eff_growth,
      terminal_value, tv_gordon, tv_exit_opt, terminal_fcf, terminal_fcf_raw,
      terminal_revenue, terminal_growth_used, validate_terminal_growth,
      List.range', snap_base, assum_base]
  have h80b : tv_percent_pre snap_base
      { assum_base with terminal_growth := 1/25 } (1/10) ≤ 80/100 := by
    norm_num [tv_percent_pre, enterprise_value_pre, pv_terminal_value_pre,
      sum_pv_fcf, projections, proj_year, fcf_at, nwc_change_at,
      nwc_prior_revenue, cogs_margin, proj_margin, proj_revenue, eff_growth,
      terminal_value, tv_gordon, tv_exit_opt, terminal_fcf, terminal_fcf_raw,
      terminal_revenue, terminal_growth_used, validate_terminal_growth,
      List.range', snap_base, assum_base]
  have hca : implied_market_cap snap_base assum_base (1/10)
      ≤ 5000000000000 := by
    norm_num [implied_market_cap, price_pre_cap, equity_value, final_shares,
      buyback_rate, paydown_rate, net_debt, enterprise_value_post,
      pv_terminal_value_post, tv_percent_pre, enterprise_value_pre,
      pv_terminal_value_pre, sum_pv_fcf, projections, proj_year, fcf_at,
      nwc_change_at, nwc_prior_revenue, cogs_margin, proj_margin,
      proj_revenue, eff_growth, terminal_value, tv_gordon, tv_exit_opt,
      terminal_fcf, terminal_fcf_raw, terminal_revenue, terminal_growth_used,
      validate_terminal_growth, List.range', snap_base, assum_base]
  have hcb : implied_market_cap snap_base
      { assum_base with terminal_growth := 1/25 } (1/10)
      ≤ 5000000000000 := by
    norm_num [implied_market_cap, price_pre_cap, equity_value, final_shares,
      buyback_rate, paydown_rate, net_debt, enterprise_value_post,
      pv_terminal_value_post, tv_percent_pre, enterprise_value_pre,
      pv_terminal_value_pre, sum_pv_fcf, projections, proj_year, fcf_at,
      nwc_change_at, nwc_prior_revenue, cogs_margin, proj_margin,
      proj_revenue, eff_growth, terminal_value, tv_gordon, tv_exit_opt,
      terminal_fcf, terminal_fcf_raw, terminal_revenue, terminal_growth_used,
      validate_terminal_growth, List.range', snap_base, assum_base]
  have h8g : assum_base.terminal_growth ≤ 8/100 := by norm_num [assum_base]
  have hg1 : assum_base.terminal_growth < 1/10 := by norm_num [assum_base]
  have h12w : (1/10 : ℚ) < 11/100 := by norm_num
  have hfcfs : ∀ y ∈ List.range' 1 10, 0 ≤ fcf_at snap_base assum_base y := by
    intro y hy
    norm_num [List.range'] at hy
    rcases hy with rfl | rfl | rfl | rfl | rfl | rfl | rfl | rfl | rfl | rfl <;>
      norm_num [fcf_at, nwc_change_at, nwc_prior_revenue, cogs_margin,
        proj_margin, proj_revenue, eff_growth, snap_base, assum_base]
  have hfcfT : 0 < terminal_fcf snap_base assum_base (1/10) := by
    norm_num [terminal_fcf, terminal_fcf_raw, terminal_revenue,
      terminal_growth_used, validate_terminal_growth, proj_revenue,
      eff_growth, cogs_margin, snap_base, assum_base]
  have h80c : tv_percent_pre snap_base assum_base (11/100) ≤ 80/100 := by
    norm_num [tv_percent_pre, enterprise_value_pre, pv_terminal_value_pre,
      sum_pv_fcf, projections, proj_year, fcf_at, nwc_change_at,
      nwc_prior_revenue, cogs_margin, proj_margin, proj_revenue, eff_growth,
      terminal_value, tv_gordon, tv_exit_opt, terminal_fcf, terminal_fcf_raw,
      terminal_revenue, terminal_growth_used, validate_terminal_growth,
      List.range', snap_base, assum_base]
  have hcc : implied_market_cap snap_base assum_base (11/100)
      ≤ 5000000000000 := by
    norm_num [implied_market_cap, price_pre_cap, equity_value, final_shares,
      buyback_rate, paydown_rate, net_debt, enterprise_value_post,
      pv_terminal_value_post, tv_percent_pre, enterprise_value_pre,
      pv_terminal_value_pre, sum_pv_fcf, projections, proj_year, fcf_at,
      nwc_change_at, nwc_prior_revenue, cogs_margin, proj_margin,
      proj_revenue, eff_growth, terminal_value, tv_gordon, tv_exit_opt,
      terminal_fcf, terminal_fcf_raw, terminal_revenue, terminal_growth_used,
      validate_terminal_growth, List.range', snap_base, assum_base]
  exact ⟨⟨h12, hw, h80a, hca⟩,
    (C7_monotonicity_amended snap_base assum_base (1/10) (1/10) (11/100)
        (1/25)).1 h0 h12 h8 hw h10 hmt hK hraw h80a h80b hca hcb,
    (C7_monotonicity_amended snap_base assum_base (1/10) (1/10) (11/100)
        (1/25)).2 h0 h8g hg1 h12w hfcfs hfcfT hmt h10 h80a h80c hca hcc⟩
